import Mathlib

/-!
Verification of the lofi-generator core: music theory (`music-theory.ts`),
the Mulberry32 random stream (`rng.ts`), the presets (`presets.ts`), the
composition engine (`song.ts`, `SongBuilder`/`buildSong`), the playback
scheduler (`song-scheduler.ts`) and the engine facade (`engine.ts`).
TypeScript numbers on the integer paths are modelled by `Int`/`Nat` (JS
`%` is `Int.tmod`, JS bitwise ops act on the unsigned 32-bit pattern);
JS floats by `ℚ` (every float operation on the control-flow paths here is
exact on the dyadic rationals involved, so the model is bit-faithful
there); the four float transcendentals `Math.sqrt/log/cos/sin` and
`Math.PI`, which feed only velocity values, are kept abstract as a
`JsMath` parameter every theorem quantifies over; JS strings by `String`,
operating on their character lists.
-/

namespace Lofi

/-! ### Character/string helpers mirroring the JS string primitives -/

/-- Value of a list of decimal digit characters (the accumulator loop that
`Number.parseInt` performs on a digit string). -/
def charsToNat (ds : List Char) : Nat :=
  ds.foldl (fun acc d => acc * 10 + (Char.toNat d - Char.toNat '0')) 0

/-- `String.prototype.split` with a single-character separator, on
character lists: always returns at least one (possibly empty) piece. -/
def splitCharsOn (sep : Char) : List Char → List (List Char)
  | [] => [[]]
  | c :: rest =>
    if c = sep then
      [] :: splitCharsOn sep rest
    else
      match splitCharsOn sep rest with
      | [] => [[c]]
      | p :: ps => (c :: p) :: ps

/-- All-decimal-digits parse (used to state well-formedness of transport
time components). -/
def decDigits (cs : List Char) : Option Nat :=
  if cs ≠ [] ∧ cs.all Char.isDigit then some (charsToNat cs) else none

/-- JS `Number.parseInt(x, 10)`: skip leading whitespace, optional sign,
then the longest decimal-digit prefix; `none` when that prefix is empty
(JS `NaN`). -/
def jsParseIntCore : List Char → Option Int
  | [] => none
  | c :: rest =>
    if c = '-' then
      let ds := rest.takeWhile Char.isDigit
      if ds = [] then none else some (-(charsToNat ds : Int))
    else if c = '+' then
      let ds := rest.takeWhile Char.isDigit
      if ds = [] then none else some (charsToNat ds)
    else
      let ds := (c :: rest).takeWhile Char.isDigit
      if ds = [] then none else some (charsToNat ds)

def jsParseInt (cs : List Char) : Option Int :=
  jsParseIntCore (cs.dropWhile Char.isWhitespace)

/-- JS `Number.parseInt(x, 10) || 0` (`NaN` collapses to `0`). -/
def jsParseIntOr0 (cs : List Char) : Int :=
  (jsParseInt cs).getD 0

/-! ### Music theory (`music-theory.ts`) -/

abbrev MidiNote := Int

def CHORD_SHAPES : List (String × List Int) :=
  [("maj7", [0, 4, 7, 11]),
   ("min7", [0, 3, 7, 10]),
   ("dom7", [0, 4, 7, 10]),
   ("maj", [0, 4, 7]),
   ("min", [0, 3, 7]),
   ("add9", [0, 4, 7, 14]),
   ("min9", [0, 3, 7, 10, 14]),
   ("maj9", [0, 4, 7, 11, 14]),
   ("m7b5", [0, 3, 6, 10]),
   ("dim7", [0, 3, 6, 9]),
   ("sus2", [0, 2, 7]),
   ("sus4", [0, 5, 7, 10])]

def SCALES : List (String × List Int) :=
  [("major", [0, 2, 4, 5, 7, 9, 11]),
   ("minor", [0, 2, 3, 5, 7, 8, 10]),
   ("dorian", [0, 2, 3, 5, 7, 9, 10]),
   ("pentatonic", [0, 2, 4, 7, 9]),
   ("minPenta", [0, 3, 5, 7, 10])]

def NOTE_NAMES : List String :=
  ["C", "C#", "D", "D#"] ++ ["E", "F", "F#", "G"] ++ ["G#", "A", "A#", "B"]

/-- Diatonic chord qualities per scale degree (1-based), major scale. -/
def DIATONIC_MAJOR : List (Int × String) :=
  [(1, "maj7"), (2, "min7"), (3, "min7"), (4, "maj7"),
   (5, "dom7"), (6, "min7"), (7, "m7b5")]

/-- Diatonic chord qualities per scale degree (1-based), minor/dorian. -/
def DIATONIC_MINOR : List (Int × String) :=
  [(1, "min7"), (2, "m7b5"), (3, "maj7"), (4, "min7"),
   (5, "min7"), (6, "maj7"), (7, "dom7")]

def midiToName (midi : MidiNote) : String :=
  let octave : Int := midi.fdiv 12 - 1
  let noteIdx : Int := ((midi.tmod 12) + 12).tmod 12
  (NOTE_NAMES.getD noteIdx.toNat "") ++ octave.repr

/-- The regex `^([A-G]#?)(-?\d+)$`: note-letter group and signed-octave
group, or `none` when the string does not match. -/
def parseNoteName (s : String) : Option (String × Int) :=
  let octPart : List Char → Option Int := fun cs =>
    match cs with
    | '-' :: ds => if ds ≠ [] ∧ ds.all Char.isDigit
                   then some (-(charsToNat ds : Int)) else none
    | ds => if ds ≠ [] ∧ ds.all Char.isDigit
            then some (charsToNat ds) else none
  match s.data with
  | [] => none
  | c :: rest =>
    if 'A' ≤ c ∧ c ≤ 'G' then
      match rest with
      | '#' :: rest2 => (octPart rest2).map (fun o => (String.mk [c, '#'], o))
      | _ => (octPart rest).map (fun o => (String.mk [c], o))
    else none

def nameToMidi (name : String) : MidiNote :=
  match parseNoteName name with
  | none => 60
  | some (note, octave) =>
    match NOTE_NAMES.findIdx? (fun x => x = note) with
    | none => 60
    | some noteIdx => (octave + 1) * 12 + (noteIdx : Int)

def buildChord (rootMidi : MidiNote) (quality : String) : List MidiNote :=
  let shape := (CHORD_SHAPES.lookup quality).getD [0, 4, 7, 11]
  shape.map (fun interval => rootMidi + interval)

def getScaleNotes (rootName : String) (scaleType : String)
    (octaveLow octaveHigh : Int) : List MidiNote :=
  let scale := (SCALES.lookup scaleType).getD [0, 2, 4, 5, 7, 9, 11]
  let rootMidi := nameToMidi (rootName ++ "4")
  let rootPitch := rootMidi.tmod 12
  let octCount : Nat := (octaveHigh - octaveLow + 1).toNat
  let result := (List.range octCount).flatMap (fun k =>
    let base := (octaveLow + (k : Int) + 1) * 12
    scale.map (fun offset => base + (rootPitch + offset + 12).tmod 12))
  result.insertionSort (· ≤ ·)

/-- Build scale as semitone offsets from root (for motif generation). -/
def buildScale (rootName : String) (scaleType : String) : List Int :=
  let scale := (SCALES.lookup scaleType).getD [0, 2, 4, 5, 7, 9, 11]
  let rootPitch := (nameToMidi (rootName ++ "4")).tmod 12
  scale.map (fun s => (rootPitch + s).tmod 12)

/-- 7-note scale for chord degree resolution (pentatonic uses major/minor). -/
def CHORD_SCALES : List (String × List Int) :=
  [("major", [0, 2, 4, 5, 7, 9, 11]),
   ("minor", [0, 2, 3, 5, 7, 8, 10]),
   ("dorian", [0, 2, 3, 5, 7, 9, 10]),
   ("pentatonic", [0, 2, 4, 5, 7, 9, 11]),
   ("minPenta", [0, 2, 3, 5, 7, 8, 10])]

/-- Get diatonic chord for a scale degree (1-based). -/
def diatonicChord (key : String) (scaleType : String) (degree : Int) :
    MidiNote × String :=
  let scale := (CHORD_SCALES.lookup scaleType).getD [0, 2, 4, 5, 7, 9, 11]
  let rootMidi := nameToMidi (key ++ "4")
  let diatonic :=
    if scaleType = "minor" ∨ scaleType = "minPenta" ∨ scaleType = "dorian"
    then DIATONIC_MINOR else DIATONIC_MAJOR
  let normDegree := (((degree - 1).tmod 7) + 7).tmod 7 + 1
  let quality := (diatonic.lookup normDegree).getD "maj7"
  let degreeIdx := (((degree - 1).tmod 7) + 7).tmod 7
  let degreeSemitone := scale.getD degreeIdx.toNat 0
  (rootMidi + degreeSemitone, quality)

/-- Resolve a `[degree, quality]` template to `(root, quality)`. -/
def resolveChordFromTemplate (key : String) (scaleType : String)
    (template : Int × String) : MidiNote × String :=
  ((diatonicChord key scaleType template.1).1, template.2)

/-- Two-hand spread voicing: LH root+5th low, RH remaining tones high. -/
def spreadChord (rootMidi : MidiNote) (quality : String) : List MidiNote :=
  let shape := (CHORD_SHAPES.lookup quality).getD [0, 4, 7, 11]
  let notes := shape.map (fun i => rootMidi + i)
  let root := notes.headD rootMidi
  let fifth :=
    match shape.findIdx? (fun x => x = 7) with
    | some idx5 => notes.getD idx5 0
    | none => root + 7
  let upper := notes.filter (fun n => n ≠ root ∧ n ≠ fifth)
  let left := [root - 12, fifth - 12]
  let right := if upper.length > 0 then upper else [root + 4]
  (((left ++ right).insertionSort (fun a b => a ≤ b)).filter
    (fun n => n ≥ 28))

/-! ### Song data model (`song.ts` types, per the scheduler/engine usage) -/

structure InstrumentNoteEvent where
  time : String
  note : String
  duration : String
  velocity : ℚ
  instrument : String
deriving DecidableEq, Repr

inductive DrumVoice
  | kick
  | snare
  | hihat
deriving DecidableEq, Repr

structure DrumEvent where
  time : String
  instrument : DrumVoice
  velocity : ℚ
deriving DecidableEq, Repr

structure Section where
  name : String
  startBar : Nat
  bars : Nat
  padVolume : ℚ
  instrumentEvents : List InstrumentNoteEvent
  drumEvents : List DrumEvent
deriving DecidableEq, Repr

/-- Mulberry32 PRNG (`rng.ts`): 32-bit state. JS keeps `state` as a
double (`state = seed | 0`, then `state += 0x6d2b79f5` unwrapped), but
every observable use — the mixing in `next()` and the `| 0` in `fork()`'s
constructor — truncates it to its 32-bit pattern, and the double stays
exact far beyond any draw count reached here, so the state is modelled as
that pattern directly. -/
structure Rng where
  state : Nat
deriving DecidableEq, Repr

/-- `new Rng(seed)`: `seed | 0` keeps the low 32 bits (seeds here are
non-negative). -/
def mkRng (seed : Nat) : Rng := ⟨seed % 2 ^ 32⟩

/-- `next()`: `state += 0x6d2b79f5`, two `Math.imul` mixing rounds on the
32-bit pattern (`Math.imul a b` is `a * b` mod `2^32` pattern-wise, `+`
of two int32s followed by a bitwise op likewise), and
`((t ^ (t >>> 14)) >>> 0) / 4294967296`, an exact dyadic rational. -/
def Rng.next (r : Rng) : ℚ × Rng :=
  let m : Nat := 2 ^ 32
  let s := (r.state + 0x6d2b79f5) % m
  let t1 := ((s ^^^ (s >>> 15)) * (s ||| 1)) % m
  let t2 := t1 ^^^ ((t1 + ((t1 ^^^ (t1 >>> 7)) * (t1 ||| 61)) % m) % m)
  let t3 := t2 ^^^ (t2 >>> 14)
  (((t3 : ℚ) / (m : ℚ)), ⟨s⟩)

/-- JS `| 0` on a small float: truncation toward zero. -/
def jsTrunc (q : ℚ) : Int := if 0 ≤ q then ⌊q⌋ else -⌊-q⌋

/-- `int(min, max)`: `(this.next() * (max - min + 1) + min) | 0`. -/
def Rng.int (r : Rng) (lo hi : Int) : Int × Rng :=
  let (f, r1) := r.next
  (jsTrunc (f * ((hi : ℚ) - (lo : ℚ) + 1) + (lo : ℚ)), r1)

/-- `pick(arr)`: `arr[this.int(0, arr.length - 1)]` (the default is
unreachable: the arrays picked from are non-empty). -/
def Rng.pick {α : Type} (r : Rng) (xs : List α) (dflt : α) : α × Rng :=
  let (i, r1) := r.int 0 ((xs.length : Int) - 1)
  (xs.getD i.toNat dflt, r1)

/-- The `weightedPick` loop: subtract weights until the running value
drops to `≤ 0`. -/
def weightedLoop {α : Type} : List α → List ℚ → ℚ → Option α
  | [], _, _ => none
  | _ :: _, [], _ => none
  | a :: items, w :: ws, racc =>
    if racc - w ≤ 0 then some a else weightedLoop items ws (racc - w)

/-- `weightedPick(items, weights)`: one draw, scaled by the weight total;
falls through to the last item. -/
def Rng.weightedPick {α : Type} (r : Rng) (items : List α)
    (weights : List ℚ) (dflt : α) : α × Rng :=
  let total := weights.foldl (fun a b => a + b) 0
  let (f, r1) := r.next
  ((weightedLoop items weights (f * total)).getD
    (items.getD (items.length - 1) dflt), r1)

/-- `chance(p)`: `this.next() < p`. The draws are dyadic `k / 2^32` and
the probabilities short decimal literals, whose float values differ from
their decimal reading by far less than `2^-32`, so the comparison in ℚ
agrees with the float comparison. -/
def Rng.chance (r : Rng) (p : ℚ) : Bool × Rng :=
  let (f, r1) := r.next
  (decide (f < p), r1)

/-- The four float transcendentals (`Math.sqrt/log/cos/sin`) and
`Math.PI`. They feed only velocity values (never control flow or draw
counts), and binary-float transcendentals have no exact rational
embedding, so they are kept abstract; every theorem quantifies over this
structure and holds in particular for the actual float functions. -/
structure JsMath where
  sqrt : ℚ → ℚ
  log : ℚ → ℚ
  cos : ℚ → ℚ
  sin : ℚ → ℚ
  pi : ℚ

/-- `gaussian(mean, stddev)`: Box-Muller; always consumes two draws, and
returns `mean` unperturbed when `u1 < 1e-10`. -/
def Rng.gaussian (jm : JsMath) (r : Rng) (mean stddev : ℚ) : ℚ × Rng :=
  let (u1, r1) := r.next
  let (u2, r2) := r1.next
  if u1 < 1 / 10 ^ 10 then (mean, r2)
  else
    let z := jm.sqrt (-2 * jm.log u1) * jm.cos (2 * jm.pi * u2)
    (mean + stddev * z, r2)

/-- `fork()`: `new Rng(this.state)` — a pure snapshot of the current
state; the parent generator is not advanced. -/
def Rng.fork (r : Rng) : Rng := ⟨r.state⟩

/-- One bar of 16th-step drum velocities (`presets.ts` `DrumPattern`). -/
structure DrumPattern where
  hihat : List ℚ
  kick : List ℚ
  snare : List ℚ
deriving DecidableEq, Repr, Inhabited

/-- The `pattern(kick, snare, hihat)` constructor helper. -/
def pattern (kick snare hihat : List ℚ) : DrumPattern :=
  { kick := kick, snare := snare, hihat := hihat }

def JAZZHOP_PATTERNS : List DrumPattern :=
  [pattern
    [1, 0, 0, 0, 1, 0, 0, 0, 1, 0, 0, 0, 1, 0, 0, 0]
    [0, 0, 0, 0, 1, 0, 0, 0, 0, 0, 0, 0, 1, 0, 0, 0]
    [0.3, 0.2, 0.3, 0.2, 0.3, 0.2, 0.3, 0.2, 0.3, 0.2, 0.3, 0.2, 0.3, 0.2,
      0.3, 0.2],
   pattern
    [1, 0, 0, 0, 1, 0, 0, 0, 1, 0, 0, 0, 1, 0, 0.5, 0]
    [0, 0, 0.5, 0, 1, 0, 0, 0, 0, 0, 0.5, 0, 1, 0, 0, 0]
    [0.25, 0.15, 0.25, 0.15, 0.25, 0.15, 0.25, 0.15, 0.25, 0.15, 0.25, 0.15,
      0.25, 0.15, 0.25, 0.15]]

def JAZZHOP_FILLS : List DrumPattern :=
  [pattern
    [1, 0, 0, 0, 1, 0, 0, 0, 1, 0, 1, 0, 1, 0, 0, 0]
    [0, 0, 0, 0, 0, 0, 0, 0, 0.5, 0.5, 0.5, 0.5, 1, 0, 0, 0]
    [0.4, 0.3, 0.4, 0.3, 0.4, 0.3, 0.5, 0.4, 0.5, 0.4, 0.5, 0.4, 0.5, 0.4,
      0.5, 0.4]]

def CHILLHOP_PATTERNS : List DrumPattern :=
  [pattern
    [1, 0, 0, 0, 1, 0, 0, 0, 1, 0, 0, 0, 1, 0, 0, 0]
    [0, 0, 0, 0, 1, 0, 0, 0, 0, 0, 0, 0, 1, 0, 0, 0]
    [0.35, 0.2, 0.35, 0.2, 0.35, 0.2, 0.35, 0.2, 0.35, 0.2, 0.35, 0.2, 0.35,
      0.2, 0.35, 0.2],
   pattern
    [1, 0, 0, 0, 1, 0, 0, 0, 1, 0, 0, 0, 1, 0, 0.6, 0]
    [0, 0, 0.4, 0, 1, 0, 0, 0, 0, 0, 0.4, 0, 1, 0, 0, 0]
    [0.3, 0.25, 0.3, 0.25, 0.3, 0.25, 0.3, 0.25, 0.3, 0.25, 0.3, 0.25, 0.3,
      0.25, 0.3, 0.25]]

def CHILLHOP_FILLS : List DrumPattern :=
  [pattern
    [1, 0, 0, 0, 1, 0, 0, 0, 1, 0, 1, 0, 1, 0, 0, 0]
    [0, 0, 0, 0, 0, 0, 0, 0, 0.5, 0.5, 0.5, 1, 1, 0, 0, 0]
    [0.3, 0.3, 0.35, 0.35, 0.4, 0.4, 0.45, 0.45, 0.5, 0.5, 0.5, 0.5, 0.5,
      0.5, 0.5, 0.5]]

def AMBIENT_PATTERNS : List DrumPattern :=
  [pattern
    [1, 0, 0, 0, 1, 0, 0, 0, 1, 0, 0, 0, 1, 0, 0, 0]
    [0, 0, 0, 0, 0.4, 0, 0, 0, 0, 0, 0, 0, 0.4, 0, 0, 0]
    [0.2, 0.15, 0.2, 0.15, 0.2, 0.15, 0.2, 0.15, 0.2, 0.15, 0.2, 0.15, 0.2,
      0.15, 0.2, 0.15],
   pattern
    [1, 0, 0, 0, 0, 0, 0, 0, 1, 0, 0, 0, 0, 0, 0, 0]
    [0, 0, 0, 0, 0, 0, 0, 0, 0, 0, 0, 0, 0.3, 0, 0, 0]
    [0.15, 0.1, 0.15, 0.1, 0.15, 0.1, 0.15, 0.1, 0.15, 0.1, 0.15, 0.1, 0.15,
      0.1, 0.15, 0.1]]

def AMBIENT_FILLS : List DrumPattern :=
  [pattern
    [1, 0, 0, 0, 1, 0, 0, 0, 1, 0, 0, 0, 1, 0, 0, 0]
    [0, 0, 0, 0, 0, 0, 0, 0, 0, 0, 0.3, 0.3, 0.5, 0, 0, 0]
    [0.2, 0.2, 0.25, 0.25, 0.3, 0.3, 0.3, 0.3, 0.3, 0.3, 0.3, 0.3, 0.3, 0.3,
      0.3, 0.3]]

def BOOMBAP_PATTERNS : List DrumPattern :=
  [pattern
    [1, 0, 0, 0, 1, 0, 0, 0, 1, 0, 0, 0, 1, 0, 0, 0]
    [0, 0, 0, 0, 1, 0, 0, 0, 0, 0, 0, 0, 1, 0, 0, 0]
    [0.5, 0.2, 0.5, 0.2, 0.5, 0.2, 0.5, 0.2, 0.5, 0.2, 0.5, 0.2, 0.5, 0.2,
      0.5, 0.2],
   pattern
    [1, 0, 0, 0.3, 1, 0, 0, 0, 1, 0, 0, 0, 1, 0, 0.4, 0]
    [0, 0, 0.6, 0, 1, 0, 0.6, 0, 0, 0, 0.6, 0, 1, 0, 0, 0]
    [0.55, 0.2, 0.55, 0.25, 0.55, 0.2, 0.55, 0.25, 0.55, 0.2, 0.55, 0.25,
      0.55, 0.2, 0.55, 0.25]]

def BOOMBAP_FILLS : List DrumPattern :=
  [pattern
    [1, 0, 0, 0, 1, 0, 1, 0, 1, 0, 0, 0, 1, 0, 1, 0]
    [0, 0, 0, 0, 0, 0, 0, 0, 0.6, 0.6, 0.6, 0.6, 1, 0, 0, 0]
    [0.6, 0.5, 0.6, 0.5, 0.65, 0.55, 0.65, 0.55, 0.7, 0.6, 0.7, 0.6, 0.7,
      0.6, 0.7, 0.6]]

def SLEEPY_PATTERNS : List DrumPattern :=
  [pattern
    [1, 0, 0, 0, 1, 0, 0, 0, 1, 0, 0, 0, 1, 0, 0, 0]
    [0, 0, 0, 0, 0.3, 0, 0, 0, 0, 0, 0, 0, 0.3, 0, 0, 0]
    [0.15, 0.1, 0.15, 0.1, 0.15, 0.1, 0.15, 0.1, 0.15, 0.1, 0.15, 0.1, 0.15,
      0.1, 0.15, 0.1],
   pattern
    [1, 0, 0, 0, 0, 0, 0, 0, 1, 0, 0, 0, 0, 0, 0, 0]
    [0, 0, 0, 0, 0, 0, 0, 0, 0, 0, 0, 0, 0.25, 0, 0, 0]
    [0.12, 0.08, 0.12, 0.08, 0.12, 0.08, 0.12, 0.08, 0.12, 0.08, 0.12, 0.08,
      0.12, 0.08, 0.12, 0.08]]

def SLEEPY_FILLS : List DrumPattern :=
  [pattern
    [1, 0, 0, 0, 1, 0, 0, 0, 1, 0, 0, 0, 1, 0, 0, 0]
    [0, 0, 0, 0, 0, 0, 0, 0, 0, 0, 0.2, 0.2, 0.35, 0, 0, 0]
    [0.15, 0.15, 0.15, 0.15, 0.18, 0.18, 0.18, 0.18, 0.18, 0.18, 0.18, 0.18,
      0.18, 0.18, 0.18, 0.18]]

/-- `presets.ts` `LofiPreset`. The `pad`/`melody`/`bass` sub-records are
kept as their `volume` fields only: their `synthType`/`options` are
Tone.js synth configuration consumed by the instruments module and never
read by the generator or scheduler beyond `pad.volume`. -/
structure LofiPreset where
  bassVolume : ℚ
  chordDurationBars : Option Nat
  chordVoicing : Option (List String)
  crackleMix : ℚ
  delayFeedback : ℚ
  delayMix : ℚ
  delayTime : String
  drumFills : List DrumPattern
  drumPatterns : List DrumPattern
  extraInstruments : Option (List (String × ℚ))
  filterCutoff : ℚ
  hihatVolume : ℚ
  keys : List String
  kickVolume : ℚ
  melodyVolume : ℚ
  melodyRestProbability : ℚ
  motifLength : Int × Int
  name : String
  padVolume : ℚ
  progressions : List (List (Int × String))
  reverbDecay : ℚ
  reverbMix : ℚ
  scaleType : String
  snareVolume : ℚ
  susChordProbability : Option ℚ
  swing : ℚ
  tempoRange : Int × Int
  useSoftVoicings : Bool
deriving DecidableEq, Repr, Inhabited

/-- The five presets (`presets.ts` `PRESETS`), generation-relevant fields
verbatim. -/
def PRESETS : List LofiPreset :=
  [{ name := "Jazzhop", tempoRange := (70, 80), swing := 0.3,
     padVolume := -4, melodyVolume := -3, bassVolume := -2,
     drumPatterns := JAZZHOP_PATTERNS, drumFills := JAZZHOP_FILLS,
     kickVolume := -2, snareVolume := -5, hihatVolume := -12,
     reverbDecay := 3.5, reverbMix := 0.35,
     delayTime := "8n", delayFeedback := 0.3, delayMix := 0.2,
     filterCutoff := 1400, crackleMix := 0.06,
     keys := ["C", "F", "G", "Am", "Bb", "Eb"],
     progressions :=
       [[(1, "min7"), (4, "min7"), (1, "min7"), (5, "min7")],
        [(1, "min7"), (4, "min7"), (1, "min7"), (4, "min7")],
        [(4, "min7"), (1, "min7"), (5, "min7"), (1, "min7")]],
     scaleType := "dorian", melodyRestProbability := 0.25,
     motifLength := (4, 6), useSoftVoicings := true,
     chordVoicing := some ["block", "broken", "arpeggio"],
     susChordProbability := some 0.15, chordDurationBars := none,
     extraInstruments := some [("piano", 0.5), ("trumpet", 0.3)] },
   { name := "Chillhop", tempoRange := (80, 90), swing := 0.15,
     padVolume := -6, melodyVolume := -4, bassVolume := -2,
     drumPatterns := CHILLHOP_PATTERNS, drumFills := CHILLHOP_FILLS,
     kickVolume := -2, snareVolume := -6, hihatVolume := -11,
     reverbDecay := 3, reverbMix := 0.4,
     delayTime := "4n", delayFeedback := 0.35, delayMix := 0.18,
     filterCutoff := 1000, crackleMix := 0.07,
     keys := ["C", "G", "F", "Am", "Dm", "Em"],
     progressions :=
       [[(1, "maj"), (5, "maj"), (6, "min"), (4, "maj")],
        [(1, "maj"), (6, "min"), (4, "maj"), (5, "maj")],
        [(4, "maj"), (1, "maj"), (6, "min"), (5, "maj")],
        [(6, "min"), (4, "maj"), (1, "maj"), (5, "maj")]],
     scaleType := "major", melodyRestProbability := 0.2,
     motifLength := (5, 8), useSoftVoicings := true,
     chordVoicing := some ["block", "spread", "arpeggio"],
     susChordProbability := some 0.2, chordDurationBars := none,
     extraInstruments :=
       some [("piano", 0.6), ("violin", 0.35), ("guitar", 0.25)] },
   { name := "Ambient", tempoRange := (65, 75), swing := 0.05,
     padVolume := -4, melodyVolume := -6, bassVolume := -3,
     drumPatterns := AMBIENT_PATTERNS, drumFills := AMBIENT_FILLS,
     kickVolume := -4, snareVolume := -10, hihatVolume := -16,
     reverbDecay := 5, reverbMix := 0.5,
     delayTime := "2n", delayFeedback := 0.4, delayMix := 0.25,
     filterCutoff := 1200, crackleMix := 0.08,
     keys := ["Am", "Dm", "Em", "C", "F"],
     progressions :=
       [[(1, "min"), (4, "min"), (1, "min"), (4, "min")],
        [(1, "min"), (5, "min"), (1, "min"), (5, "min")],
        [(4, "min"), (1, "min"), (5, "min"), (1, "min")]],
     scaleType := "pentatonic", melodyRestProbability := 0.6,
     motifLength := (3, 4), chordDurationBars := some 2,
     useSoftVoicings := true, chordVoicing := some ["block", "spread"],
     susChordProbability := none,
     extraInstruments := some [("violin", 0.3)] },
   { name := "Boom Bap", tempoRange := (85, 95), swing := 0.1,
     padVolume := -6, melodyVolume := -8, bassVolume := -3,
     drumPatterns := BOOMBAP_PATTERNS, drumFills := BOOMBAP_FILLS,
     kickVolume := 0, snareVolume := -4, hihatVolume := -10,
     reverbDecay := 2.5, reverbMix := 0.3,
     delayTime := "8n", delayFeedback := 0.25, delayMix := 0.12,
     filterCutoff := 1000, crackleMix := 0.15,
     keys := ["Am", "Dm", "Em", "Gm", "Cm", "Fm"],
     progressions :=
       [[(1, "min"), (5, "min"), (1, "min"), (5, "min")],
        [(1, "min"), (4, "min"), (1, "min"), (5, "min")],
        [(1, "min"), (4, "min"), (5, "min"), (1, "min")]],
     scaleType := "minPenta", useSoftVoicings := true,
     melodyRestProbability := 0.4, motifLength := (3, 5),
     chordDurationBars := none, chordVoicing := none,
     susChordProbability := none, extraInstruments := none },
   { name := "Sleepy", tempoRange := (60, 70), swing := 0.08,
     padVolume := -6, melodyVolume := -5, bassVolume := -3,
     drumPatterns := SLEEPY_PATTERNS, drumFills := SLEEPY_FILLS,
     kickVolume := -3, snareVolume := -8, hihatVolume := -14,
     reverbDecay := 4, reverbMix := 0.45,
     delayTime := "4n", delayFeedback := 0.35, delayMix := 0.2,
     filterCutoff := 1100, crackleMix := 0.05,
     keys := ["C", "F", "G", "Am", "Dm"],
     progressions :=
       [[(1, "maj"), (4, "maj"), (1, "maj"), (5, "maj")],
        [(1, "maj"), (5, "maj"), (6, "min"), (4, "maj")],
        [(6, "min"), (4, "maj"), (1, "maj"), (5, "maj")]],
     scaleType := "pentatonic", useSoftVoicings := true,
     melodyRestProbability := 0.65, motifLength := (3, 4),
     chordDurationBars := none, chordVoicing := none,
     susChordProbability := none, extraInstruments := none }]

structure FxParams where
  reverbDecay : ℚ
  reverbMix : ℚ
  delayMix : ℚ
  filterCutoff : ℚ
  crackleMix : ℚ
deriving DecidableEq, Repr

structure Song where
  seed : Nat
  preset : LofiPreset
  key : String
  tempo : Int
  swing : ℚ
  sections : List Section
  totalBars : Nat
  fxParams : FxParams
deriving DecidableEq, Repr

/-- Transport time string `bar:beat:sixteenth` (the template literal the
generator and scheduler build). -/
def timeStr (bar beat sixteenth : Nat) : String :=
  Nat.repr bar ++ ":" ++ Nat.repr beat ++ ":" ++ Nat.repr sixteenth

/-! ### Composition engine (`song.ts`, `SongBuilder`) -/

def SECTION_STRUCTURES : List (List String) :=
  [["intro", "verse", "chorus", "verse", "bridge", "chorus", "outro"],
   ["intro", "verse", "chorus", "verse", "chorus", "outro"],
   ["intro", "verse", "verse", "bridge", "chorus", "outro"],
   ["verse", "chorus", "verse", "bridge", "chorus"]]

/-- `SECTION_BARS` (the wildcard is unreachable: structures name only the
five section names). -/
def SECTION_BARS : String → Int × Int
  | "intro" => (2, 4)
  | "verse" => (4, 8)
  | "chorus" => (4, 8)
  | "bridge" => (4, 8)
  | "outro" => (2, 4)
  | _ => (2, 4)

def CHORD_VELOCITIES : List ℚ := [0.88, 0.72, 0.62, 0.55]

/-- `maybeSusQuality(q, rng, prob)`; `prob <= 0` short-circuits before the
first draw, and only the `"maj"` arm takes the second draw. -/
def maybeSusQuality (q : String) (r : Rng) (prob : ℚ) : String × Rng :=
  if prob ≤ 0 then (q, r)
  else
    let (c, r1) := r.chance prob
    if ¬c then (q, r1)
    else if q = "maj" then
      let (c2, r2) := r1.chance 0.5
      ((if c2 then "sus2" else "sus4"), r2)
    else if q = "min" then ("sus4", r1)
    else (q, r1)

/-- `chordAtBar`: root of the progression chord owning `bar`. -/
def chordAtBar (key : String) (progression : List (Int × String))
    (preset : LofiPreset) (bar : Nat) : MidiNote :=
  let template := progression.getD (bar % progression.length) (1, "maj")
  (resolveChordFromTemplate key preset.scaleType template).1

structure Motif where
  degrees : List Int
  durations : List String
  velocities : List ℚ
deriving DecidableEq, Repr

/-- `SongBuilder.generateMotif`: forks, then draws length, start degree,
the walk moves, the durations and the velocity arc in that order. -/
def generateMotif (jm : JsMath) (parent : Rng) (scale : List Int)
    (lengthRange : Int × Int) : Motif :=
  let rng := parent.fork
  let (lenI, r1) := rng.int lengthRange.1 lengthRange.2
  let len := lenI.toNat
  let scaleLen := scale.length
  let (startDeg, r2) := r1.pick ([0, 2, 4] : List Int) 0
  let (degRev, r3) :=
    (List.range (len - 1)).foldl
      (fun (acc : List Int × Rng) _ =>
        let (ds, rr) := acc
        let last := ds.headD 0
        let (move, rr1) := rr.weightedPick ([-1, -2, -3, 1, 2, 3] : List Int)
          [35, 10, 5, 35, 10, 5] 0
        ((max 0 (min ((scaleLen : Int) - 1) (last + move))) :: ds, rr1))
      ([startDeg], r2)
  let degrees := degRev.reverse
  let (durRev, r4) :=
    (List.range len).foldl
      (fun (acc : List String × Rng) _ =>
        let (ds, rr) := acc
        let (d, rr1) := rr.weightedPick ["8n", "4n", "2n"] [70, 25, 5] "8n"
        (d :: ds, rr1))
      ([], r3)
  let durations := durRev.reverse
  let (velRev, _) :=
    (List.range len).foldl
      (fun (acc : List ℚ × Rng) i =>
        let (vs, rr) := acc
        let t := (i : ℚ) / max 1 ((len : ℚ) - 1)
        let arc := 0.5 + 0.35 * jm.sin (t * jm.pi)
        let (g, rr1) := Rng.gaussian jm rr 0 0.08
        ((0.6 + g + arc * 0.2) :: vs, rr1))
      ([], r4)
  { degrees := degrees, durations := durations, velocities := velRev.reverse }

/-- `SongBuilder.varyMotif`: forks the PARENT builder rng, then applies up
to four chance-gated tweaks; the `degrees` mutations are sequential, the
`durations` tweak reads the original array. -/
def varyMotif (parent : Rng) (motif : Motif) (amount : ℚ) : Motif :=
  let rng := parent.fork
  if amount ≤ 0 then motif
  else
    let (c1, r1) := rng.chance (amount * 0.3)
    let (degrees1, r2) :=
      if c1 ∧ motif.degrees.length > 0 then
        let (iI, ra) := r1.int 0 ((motif.degrees.length : Int) - 1)
        let (delta, rb) := ra.pick ([-1, 1] : List Int) 1
        let i := iI.toNat
        (motif.degrees.set i
          (max 0 (min ((7 : Int) - 1) (motif.degrees.getD i 0 + delta))), rb)
      else (motif.degrees, r1)
    let (c2, r3) := r2.chance (amount * 0.2)
    let (degrees2, r4) :=
      if c2 ∧ degrees1.length ≥ 2 then
        let (iI, ra) := r3.int 0 ((degrees1.length : Int) - 2)
        let i := iI.toNat
        ((degrees1.set i (degrees1.getD (i + 1) 0)).set (i + 1)
          (degrees1.getD i 0), ra)
      else (degrees1, r3)
    let (c3, r5) := r4.chance (amount * 0.2)
    let (durations1, r6) :=
      if c3 then
        let (iI, ra) := r5.int 0 ((motif.durations.length : Int) - 1)
        let (d, rb) := ra.pick ["8n", "4n", "2n"] "8n"
        (motif.durations.set iI.toNat d, rb)
      else (motif.durations, r5)
    let (c4, r7) := r6.chance (amount * 0.15)
    let degrees3 :=
      if c4 ∧ degrees2.length > 0 then
        let (iI, _) := r7.int 0 ((degrees2.length : Int) - 1)
        degrees2.set iI.toNat (-1)
      else degrees2
    { degrees := degrees3, durations := durations1,
      velocities := motif.velocities }

/-- `SongBuilder.invertMotif`: mirror degrees around the first; rests
(`-1`) stay rests. No rng. -/
def invertMotif (motif : Motif) : Motif :=
  if motif.degrees.length = 0 then motif
  else
    let first := motif.degrees.headD 0
    { motif with
      degrees := motif.degrees.map
        (fun d => if d = -1 then -1 else first - (d - first)) }

/-- `SongBuilder.fragmentMotif`: keep the first
`max(1, floor(len * keepRatio))` entries of all three lists. -/
def fragmentMotif (motif : Motif) (keepRatio : ℚ) : Motif :=
  let keep := (max 1 ⌊(motif.degrees.length : ℚ) * keepRatio⌋).toNat
  { degrees := motif.degrees.take keep,
    durations := motif.durations.take keep,
    velocities := motif.velocities.take keep }

/-- `d === "8n" ? 2 : d === "4n" ? 4 : d === "2n" ? 8 : 2` from
`generateMelody`. -/
def durTo16 (d : String) : Nat :=
  if d = "8n" then 2 else if d = "4n" then 4 else if d = "2n" then 8 else 2

/-- `SongBuilder.resolveChords`: the pad chord events of one section. -/
def resolveChords (jm : JsMath) (parent : Rng) (key : String)
    (progression : List (Int × String)) (preset : LofiPreset)
    (sectionStartBar sectionBars : Nat) : List InstrumentNoteEvent :=
  let rng := parent.fork
  let len := progression.length
  let chordBars := preset.chordDurationBars.getD 1
  let baseVel := max 0.5 (0.7 + preset.padVolume / 25)
  let voicingModes := preset.chordVoicing.getD ["block"]
  let susProb := preset.susChordProbability.getD 0
  let windows := (sectionBars + chordBars - 1) / chordBars
  ((List.range windows).foldl
    (fun (acc : List InstrumentNoteEvent × Rng) k =>
      let (evts, rr) := acc
      let bar := k * chordBars
      let dq := progression.getD (k % len) (1, "maj")
      let quality := dq.2
      let q0 :=
        if preset.useSoftVoicings ∧ (quality = "maj7" ∨ quality = "min7")
        then (if quality = "maj7" then "maj" else "min") else quality
      let (q, rr1) := maybeSusQuality q0 rr susProb
      let root := (resolveChordFromTemplate key preset.scaleType (dq.1, q)).1
      let (mode, rr2) := rr1.pick voicingModes "block"
      let duration := if chordBars = 2 then "2m" else "1n"
      let baseTime := timeStr (sectionStartBar + bar) 0 0
      let chordNotes :=
        if mode = "spread" then spreadChord root q
        else ((buildChord root q).map (fun n => n - 12)).filter
          (fun n => n ≥ 28)
      let (voicingRev, _, rr3) :=
        chordNotes.foldl
          (fun (acc2 : List (String × ℚ) × Nat × Rng) n =>
            let (vs, i, r0) := acc2
            let velCurve := CHORD_VELOCITIES.getD i 0.6
            let (jit, r1) := Rng.gaussian jm r0 0 0.02
            ((midiToName n,
              max 0.35 (min 0.65 (baseVel * velCurve + jit))) :: vs,
             i + 1, r1))
          (([], 0, rr2))
      let voicing := voicingRev.reverse
      if mode = "block" then
        (evts ++ voicing.map (fun v =>
          { time := baseTime, note := v.1, duration := duration,
            velocity := v.2, instrument := "pad" }), rr3)
      else if mode = "broken" ∨ mode = "arpeggio" then
        let (c, rr4) := rr3.chance 0.5
        let ordering := if c then voicing else voicing.reverse
        (evts ++ ((List.range ordering.length).zip ordering).map (fun p =>
          { time := timeStr (sectionStartBar + bar) (p.1 * 2 / 4)
              (p.1 * 2 % 4),
            note := p.2.1, duration := "8n", velocity := p.2.2,
            instrument := "pad" }), rr4)
      else
        (evts ++ voicing.map (fun v =>
          { time := baseTime, note := v.1, duration := duration,
            velocity := v.2, instrument := "pad" }), rr3))
    ([], rng)).1

/-- `SongBuilder.generateMelody`: per two-bar slot a motif variant (the
variations fork the PARENT, so they see the same state), then the note
loop; `sixteenth` advances only when a note is emitted. -/
def generateMelody (jm : JsMath) (parent : Rng) (motif : Motif)
    (scale : List Int) (sectionName : String) (sectionBars : Nat)
    (key : String) (progression : List (Int × String))
    (preset : LofiPreset) (sectionStartBar : Nat) :
    List InstrumentNoteEvent :=
  let rng := parent.fork
  let restProb := preset.melodyRestProbability
  if sectionName = "intro" then []
  else
    let twoBarSlots := sectionBars / 2
    let scaleLen := scale.length
    ((List.range twoBarSlots).foldl
      (fun (acc : List InstrumentNoteEvent × Rng) slot =>
        let (evts, rr) := acc
        let (mOpt, rr1) :=
          if sectionName = "verse" then
            (some (varyMotif parent motif 0.2), rr)
          else if sectionName = "chorus" then
            let (c, rA) := rr.chance 0.5
            let m0 := if c then invertMotif motif else motif
            (some (varyMotif parent m0 0.15), rA)
          else if sectionName = "bridge" then
            let m0 := fragmentMotif motif 0.4
            let (c, rA) := rr.chance (restProb * 1.5)
            ((if c then none else some m0), rA)
          else if sectionName = "outro" then
            let m0 := fragmentMotif motif 0.3
            (some { m0 with
              durations := m0.durations.map (fun d =>
                if d = "8n" then "4n" else if d = "4n" then "2n" else d) },
             rr)
          else (some motif, rr)
        match mOpt with
        | none => (evts, rr1)
        | some m =>
          let slotStartBar := sectionStartBar + slot * 2
          let (noteRev, _, rr2) :=
            (List.range m.degrees.length).foldl
              (fun (st : List InstrumentNoteEvent × Nat × Rng) i =>
                let (es, sixteenth, r0) := st
                let deg := m.degrees.getD i 0
                if deg = -1 then (es, sixteenth, r0)
                else
                  let (c, r1) := r0.chance restProb
                  if c then (es, sixteenth, r1)
                  else
                    let sL := (scaleLen : Int)
                    let pitchClass :=
                      scale.getD (((deg.tmod sL + sL).tmod sL).toNat) 0
                    let octaveOffset : Int :=
                      if deg ≥ sL then 1 else if deg < 0 then -1 else 0
                    let midi := 60 + pitchClass + octaveOffset * 12
                    let bar := slotStartBar + sixteenth / 16
                    let rem := sixteenth % 16
                    let (g, r2) := Rng.gaussian jm r1 0 0.08
                    let vel0 :=
                      max 0.2 (min 1 (m.velocities.getD i 0 + g))
                    let chordPitch :=
                      (chordAtBar key progression preset bar).tmod 12
                    let notePitch := midi.tmod 12
                    let vel :=
                      if notePitch = chordPitch ∨
                          notePitch = (chordPitch + 4).tmod 12 ∨
                          notePitch = (chordPitch + 7).tmod 12 then
                        min 1 (vel0 * 1.1)
                      else vel0
                    let dur := m.durations.getD i "8n"
                    ({ time := timeStr bar (rem / 4) (rem % 4),
                       note := midiToName midi, duration := dur,
                       velocity := vel,
                       instrument := "melody" } :: es,
                     sixteenth + durTo16 dur, r2))
              (([], 0, rr1))
          (evts ++ noteRev.reverse, rr2))
      ([], rng)).1

/-- `SongBuilder.generateBass`: root (or chance-gated fifth on beat 2)
per beat, plus a chance-gated chromatic pickup on beat 3 when one chord
per bar; sparse sections stride by two beats and draw no fifth/pickup
chances. -/
def generateBass (jm : JsMath) (parent : Rng) (key : String)
    (progression : List (Int × String)) (preset : LofiPreset)
    (sectionName : String) (sectionBars sectionStartBar : Nat) :
    List InstrumentNoteEvent :=
  let rng := parent.fork
  let len := progression.length
  let isSparse :=
    sectionName = "intro" ∨ sectionName = "outro" ∨ sectionName = "bridge"
  let step := if isSparse then 2 else 1
  let chordBars := preset.chordDurationBars.getD 1
  let intensity : ℚ :=
    if sectionName = "chorus" then 0.92
    else if sectionName = "verse" then 0.85 else 0.7
  ((List.range sectionBars).foldl
    (fun (acc : List InstrumentNoteEvent × Rng) bar =>
      let (evts, rr) := acc
      let template := progression.getD ((bar / chordBars) % len) (1, "maj")
      let root := (resolveChordFromTemplate key preset.scaleType template).1
      let rootNote := midiToName (root - 12)
      let fifthNote := midiToName (root - 12 + 7)
      (((List.range 4).filter (fun b => b % step = 0)).foldl
        (fun (acc2 : List InstrumentNoteEvent × Rng) beat =>
          let (es, r0) := acc2
          let (useFifth, r1) :=
            if beat = 2 ∧ ¬isSparse then r0.chance 0.25 else (false, r0)
          let (g, r2) := Rng.gaussian jm r1 0 0.05
          let vel := 0.78 + g
          let es1 := es ++
            [{ time := timeStr (sectionStartBar + bar) beat 0,
               note := if useFifth then fifthNote else rootNote,
               duration := if isSparse then "2n" else "4n",
               velocity := max 0.5 (min 1 (vel * intensity)),
               instrument := "bass" }]
          let (doPickup, r3) :=
            if beat = 3 ∧ ¬isSparse then r2.chance 0.2 else (false, r2)
          if doPickup ∧ chordBars = 1 then
            let nextTemplate := progression.getD ((bar + 1) % len) (1, "maj")
            let nextRoot :=
              (resolveChordFromTemplate key preset.scaleType nextTemplate).1
                - 12
            (es1 ++
              [{ time := timeStr (sectionStartBar + bar) 3 2,
                 note := midiToName (nextRoot - 1), duration := "8n",
                 velocity := 0.6, instrument := "bass" }], r3)
          else (es1, r3))
        (evts, rr)))
    ([], rng)).1

/-- `SongBuilder.generateTexture`: density-gated single high chord tone
per bar; bars whose high-tone window is empty draw nothing. -/
def generateTexture (jm : JsMath) (parent : Rng) (key : String)
    (progression : List (Int × String)) (preset : LofiPreset)
    (sectionName : String) (sectionBars sectionStartBar : Nat) :
    List InstrumentNoteEvent :=
  let rng := parent.fork
  if sectionName = "intro" ∨ sectionName = "outro" then []
  else
    let len := progression.length
    let chordBars := preset.chordDurationBars.getD 1
    ((List.range sectionBars).foldl
      (fun (acc : List InstrumentNoteEvent × Rng) bar =>
        let (evts, rr) := acc
        let template := progression.getD ((bar / chordBars) % len) (1, "maj")
        let root := (resolveChordFromTemplate key preset.scaleType template).1
        let quality := template.2
        let q :=
          if preset.useSoftVoicings ∧ (quality = "maj7" ∨ quality = "min7")
          then (if quality = "maj7" then "maj" else "min") else quality
        let highTones :=
          ((buildChord root q).map (fun n => n + 24)).filter
            (fun n => n ≥ 72 ∧ n ≤ 84)
        if highTones.length = 0 then (evts, rr)
        else
          let density : ℚ :=
            if sectionName = "chorus" then 0.5
            else if sectionName = "verse" then 0.4 else 0.25
          let (c, r1) := rr.chance density
          if ¬c then (evts, r1)
          else
            let (idxI, r2) := r1.int 0 ((highTones.length : Int) - 1)
            let (beatI, r3) := r2.int 0 3
            let (sixI, r4) := r3.int 0 3
            let (g, r5) := Rng.gaussian jm r4 0 0.04
            (evts ++
              [{ time := timeStr (sectionStartBar + bar) beatI.toNat
                   sixI.toNat,
                 note := midiToName (highTones.getD idxI.toNat 0),
                 duration := "4n",
                 velocity := max 0.12 (min 0.35 (0.18 + g)),
                 instrument := "texture" }], r5))
      ([], rng)).1

/-- `SongBuilder.generateContrabass`: draws nothing from the rng. -/
def generateContrabass (key : String) (progression : List (Int × String))
    (preset : LofiPreset) (sectionName : String)
    (sectionBars sectionStartBar : Nat) : List InstrumentNoteEvent :=
  if sectionName = "intro" ∨ sectionName = "outro" then []
  else
    let len := progression.length
    let chordBars := preset.chordDurationBars.getD 1
    (List.range sectionBars).foldl
      (fun evts bar =>
        let template := progression.getD ((bar / chordBars) % len) (1, "maj")
        let root := (resolveChordFromTemplate key preset.scaleType template).1
        let cbNote := root - 12
        if cbNote < 28 then evts
        else evts ++
          [{ time := timeStr (sectionStartBar + bar) 0 0,
             note := midiToName cbNote,
             duration := if chordBars = 2 then "2m" else "1n",
             velocity := 0.65, instrument := "contrabass" }])
      []

/-- `SongBuilder.generateSubbass`: draws nothing from the rng. -/
def generateSubbass (key : String) (progression : List (Int × String))
    (preset : LofiPreset) (sectionName : String)
    (sectionBars sectionStartBar : Nat) : List InstrumentNoteEvent :=
  if sectionName = "intro" ∨ sectionName = "outro" then []
  else
    let len := progression.length
    let chordBars := preset.chordDurationBars.getD 1
    (List.range sectionBars).foldl
      (fun evts bar =>
        let template := progression.getD ((bar / chordBars) % len) (1, "maj")
        let root := (resolveChordFromTemplate key preset.scaleType template).1
        let subNote := root - 24
        if subNote < 20 then evts
        else evts ++
          [{ time := timeStr (sectionStartBar + bar) 0 0,
             note := midiToName subNote,
             duration := if chordBars = 2 then "2m" else "1n",
             velocity := 0.7, instrument := "subbass" }])
      []

/-- `SongBuilder.generateExtraInstrument`: one voiced chord per chord
window; piano/guitar may arpeggiate (one draw), guitar adds per-note
velocity jitter (drawn only for notes inside the 36..84 window). -/
def generateExtraInstrument (jm : JsMath) (parent : Rng)
    (instrumentId : String) (key : String)
    (progression : List (Int × String)) (preset : LofiPreset)
    (sectionName : String) (sectionBars sectionStartBar : Nat) :
    List InstrumentNoteEvent :=
  let rng := parent.fork
  if sectionName = "intro" ∨ sectionName = "outro" then []
  else
    let len := progression.length
    let chordBars := preset.chordDurationBars.getD 1
    let chordVoicing := preset.chordVoicing.getD ["block"]
    let windows := (sectionBars + chordBars - 1) / chordBars
    ((List.range windows).foldl
      (fun (acc : List InstrumentNoteEvent × Rng) k =>
        let (evts, rr) := acc
        let bar := k * chordBars
        let dq := progression.getD (k % len) (1, "maj")
        let quality := dq.2
        let q :=
          if preset.useSoftVoicings ∧ (quality = "maj7" ∨ quality = "min7")
          then (if quality = "maj7" then "maj" else "min") else quality
        let root := (resolveChordFromTemplate key preset.scaleType
          (dq.1, q)).1
        let (mode, r1) := rr.pick chordVoicing "block"
        let chordNotes :=
          if mode = "spread" then spreadChord root q
          else (buildChord root q).map
            (fun n => n + (if instrumentId = "guitar" then 0 else 12))
        let (isArpeggio, r2) :=
          if instrumentId = "piano" ∨ instrumentId = "guitar" then
            r1.chance 0.5
          else (false, r1)
        let (evts1, r3) :=
          (List.range chordNotes.length).foldl
            (fun (acc2 : List InstrumentNoteEvent × Rng) i =>
              let (es, r0) := acc2
              let midi := chordNotes.getD i 0
              if midi < 36 ∨ midi > 84 then (es, r0)
              else
                let sixteenth := if isArpeggio then i * 2 else 0
                let time :=
                  if isArpeggio then
                    timeStr (sectionStartBar + bar) (sixteenth / 4)
                      (sixteenth % 4)
                  else timeStr (sectionStartBar + bar) 0 0
                let baseVel : ℚ :=
                  if instrumentId = "guitar" then 0.45
                  else if instrumentId = "violin" then 0.38 else 0.4
                let (g, rg) :=
                  if instrumentId = "guitar" then Rng.gaussian jm r0 0 0.04
                  else ((0 : ℚ), r0)
                (es ++
                  [{ time := time, note := midiToName midi,
                     duration :=
                       if instrumentId = "guitar" ∨ isArpeggio then "8n"
                       else "1n",
                     velocity := max 0.2
                       (min (if instrumentId = "violin" then 0.52 else 0.6)
                         (baseVel + g)),
                     instrument := instrumentId }], rg))
            ((evts, r2))
        (evts1, r3))
      ([], rng)).1

/-- `SongBuilder.generateDrums`: pattern and fill picks, a fill-use
chance for non-intro/outro sections, then per-step kick/snare (thinned by
chance in intro/outro) and hihat (never thinned). -/
def generateDrums (parent : Rng) (preset : LofiPreset)
    (sectionName : String) (sectionBars sectionStartBar : Nat) :
    List DrumEvent :=
  let rng := parent.fork
  let (pattern0, r1) := rng.pick preset.drumPatterns default
  let (fill, r2) := r1.pick preset.drumFills default
  let (useFill, r3) :=
    if sectionName ≠ "intro" ∧ sectionName ≠ "outro" ∧ sectionBars > 0 then
      r2.chance 0.8
    else (false, r2)
  let thinOut := sectionName = "intro" ∨ sectionName = "outro"
  let thinProb : ℚ := if sectionName = "intro" then 0.6 else 0.7
  ((List.range sectionBars).foldl
    (fun (acc : List DrumEvent × Rng) bar =>
      let (evts, rr) := acc
      let pat := if bar = sectionBars - 1 ∧ useFill then fill else pattern0
      ((List.range 16).foldl
        (fun (acc2 : List DrumEvent × Rng) step =>
          let (es, r0) := acc2
          let time := timeStr (sectionStartBar + bar) (step / 4) (step % 4)
          let kickVel := pat.kick.getD step 0
          let (es1, rA) :=
            if kickVel > 0 then
              let (keep, rk) :=
                if thinOut then r0.chance (1 - thinProb) else (true, r0)
              ((if keep then es ++
                  [{ time := time, instrument := .kick,
                     velocity := max 0.2
                       (min 1 (kickVel * (preset.kickVolume / (-6)))) }]
                else es), rk)
            else (es, r0)
          let snareVel := pat.snare.getD step 0
          let (es2, rB) :=
            if snareVel > 0 then
              let (keep, rk) :=
                if thinOut then rA.chance (1 - thinProb) else (true, rA)
              ((if keep then es1 ++
                  [{ time := time, instrument := .snare,
                     velocity := max 0.2
                       (min 1 (snareVel * (1 + preset.snareVolume / 20))) }]
                else es1), rk)
            else (es1, rA)
          let hihatVel := pat.hihat.getD step 0
          let es3 :=
            if hihatVel > 0 then es2 ++
              [{ time := time, instrument := .hihat,
                 velocity := max 0.15
                   (min 1 (hihatVel * (1 + preset.hihatVolume / 20))) }]
            else es2
          (es3, rB))
        (evts, rr)))
    ([], r3)).1

/-- `SongBuilder.generateFXParams`: five direct draws on the BUILDER rng
(this is the one sub-generator that advances the parent). -/
def generateFXParams (parent : Rng) (preset : LofiPreset) : FxParams :=
  let (f1, r1) := parent.next
  let (f2, r2) := r1.next
  let (f3, r3) := r2.next
  let (f4, r4) := r3.next
  let (f5, _) := r4.next
  { reverbDecay := preset.reverbDecay * (0.95 + f1 * 0.1),
    reverbMix := preset.reverbMix * (0.9 + f2 * 0.2),
    delayMix := preset.delayMix * (0.85 + f3 * 0.3),
    filterCutoff := preset.filterCutoff * (0.9 + f4 * 0.2),
    crackleMix := preset.crackleMix * (0.8 + f5 * 0.4) }

/-- `SongBuilder.sectionPadVolume`. -/
def sectionPadVolume (sectionName : String) : ℚ :=
  if sectionName = "intro" then -12
  else if sectionName = "outro" then -9 else 0

/-- `buildSong(seed) = SongBuilder.fromSeed(seed).build()` (the engine's
only call path: no fluent overrides). Every sub-generator forks the
builder rng, so within one section they all see the same state; only the
subbass/contrabass/extra `chance` gates and the final FX draws advance
it. -/
def buildSong (jm : JsMath) (seed : Nat) : Song :=
  let r0 := mkRng seed
  let (preset, r1) := r0.pick PRESETS default
  let (key, r2) := r1.pick preset.keys ""
  let (tempo, r3) := r2.int preset.tempoRange.1 preset.tempoRange.2
  let scale := buildScale key preset.scaleType
  let (names, r4) := r3.pick SECTION_STRUCTURES []
  let (barsList, r5) :=
    names.foldl
      (fun (acc : List Nat × Rng) nm =>
        let (bs, rr) := acc
        let range := SECTION_BARS nm
        let (b, rr1) := rr.int range.1 range.2
        (bs ++ [b.toNat], rr1))
      ([], r4)
  let (progression, r6) := r5.pick preset.progressions []
  let motif := generateMotif jm r6 scale preset.motifLength
  let (sectionsRev, totalBars, r7) :=
    (names.zip barsList).foldl
      (fun (acc : List Section × Nat × Rng) nb =>
        let (secs, startBar, rp) := acc
        let nm := nb.1
        let bars := nb.2
        let chords := resolveChords jm rp key progression preset startBar bars
        let melody :=
          generateMelody jm rp motif scale nm bars key progression preset
            startBar
        let bass :=
          generateBass jm rp key progression preset nm bars startBar
        let texture :=
          generateTexture jm rp key progression preset nm bars startBar
        let (c6, rp1) := rp.chance 0.6
        let sub :=
          if c6 then generateSubbass key progression preset nm bars startBar
          else []
        let (c35, rp2) := rp1.chance 0.35
        let contra :=
          if c35 then
            generateContrabass key progression preset nm bars startBar
          else []
        let extraList := preset.extraInstruments.getD
          [("piano", 0.4), ("violin", 0.25), ("guitar", 0.2)]
        let (extraEvts, rp3) :=
          extraList.foldl
            (fun (acc2 : List InstrumentNoteEvent × Rng) ep =>
              let (es, rr) := acc2
              let (c, rr1) := rr.chance ep.2
              if c then
                (es ++ generateExtraInstrument jm rr1 ep.1 key progression
                  preset nm bars startBar, rr1)
              else (es, rr1))
            ([], rp2)
        let drums := generateDrums rp3 preset nm bars startBar
        ({ name := nm, startBar := startBar, bars := bars,
           padVolume := sectionPadVolume nm,
           instrumentEvents :=
             chords ++ melody ++ bass ++ texture ++ sub ++ contra ++
               extraEvts,
           drumEvents := drums } :: secs,
         startBar + bars, rp3))
      (([], 0, r6))
  let fx := generateFXParams r7 preset
  { seed := seed, preset := preset, key := key, tempo := tempo,
    swing := preset.swing, sections := sectionsRev.reverse,
    totalBars := totalBars, fxParams := fx }

/-! ### Transport time comparison (`song-scheduler.ts`, `compareTransportTime`) -/

/-- The `parse` closure of `compareTransportTime`:
`s.split(":").map(x => parseInt(x,10) || 0)` combined as
`parts[0]*16 + parts[1]*4 + parts[2]` (missing parts default to `0`). -/
def transportParse (s : String) : Int :=
  let parts := (splitCharsOn ':' s.data).map jsParseIntOr0
  (parts.getD 0 0) * 16 + (parts.getD 1 0) * 4 + parts.getD 2 0

def compareTransportTime (a b : String) : Int :=
  transportParse a - transportParse b

/-- Decoder for well-formed `bar:beat:sixteenth` strings: exactly three
all-digit components with `beat < 4` and `sixteenth < 4`. -/
def parseTimeTriple (s : String) : Option (Nat × Nat × Nat) :=
  match splitCharsOn ':' s.data with
  | [cb, ct, cx] =>
    match decDigits cb, decDigits ct, decDigits cx with
    | some b, some t, some x =>
      if t < 4 ∧ x < 4 then some (b, t, x) else none
    | _, _, _ => none
  | _ => none

def wellFormedTime (s : String) : Prop := (parseTimeTriple s).isSome = true

instance : DecidablePred wellFormedTime := fun s => by
  unfold wellFormedTime; infer_instance

def decodeTime (s : String) : Nat × Nat × Nat :=
  (parseTimeTriple s).getD (0, 0, 0)

/-- Composite field-wise (lexicographic) order on `(bar, beat, sixteenth)`. -/
def tripleLe (p q : Nat × Nat × Nat) : Prop :=
  p.1 < q.1 ∨ (p.1 = q.1 ∧ (p.2.1 < q.2.1 ∨ (p.2.1 = q.2.1 ∧ p.2.2 ≤ q.2.2)))

instance : DecidableRel tripleLe := fun p q => by
  unfold tripleLe; infer_instance

/-- The comparator order induced by `compareTransportTime` (ascending JS
sort). -/
def timeLe (a b : String) : Prop := transportParse a ≤ transportParse b

instance : DecidableRel timeLe := fun a b => by
  unfold timeLe; infer_instance

instance : IsTotal String timeLe := ⟨fun _ _ => le_total _ _⟩

instance : IsTrans String timeLe := ⟨fun _ _ _ h1 h2 => le_trans h1 h2⟩

/-! ### Grouping and sorting of a Song's events (`SongScheduler.schedule`) -/

/-- All event times in map-insertion order: per section, instrument events
then drum events. -/
def songEventTimes (song : Song) : List String :=
  song.sections.flatMap (fun s =>
    s.instrumentEvents.map (fun e => e.time) ++
      s.drumEvents.map (fun e => e.time))

/-- One step of JS `Map` key insertion (first occurrence kept). -/
def insertTime (acc : List String) (t : String) : List String :=
  if t ∈ acc then acc else acc ++ [t]

/-- The distinct keys of `eventsByTime`, in first-insertion order. -/
def distinctTimes (song : Song) : List String :=
  (songEventTimes song).foldl insertTime []

/-- `[...eventsByTime.keys()].sort(compareTransportTime)`. -/
def sortedTimes (song : Song) : List String :=
  (distinctTimes song).insertionSort timeLe

/-- The grouped instrument events for one time key (accumulated in
traversal order across sections). -/
def instrumentEventsAt (song : Song) (t : String) : List InstrumentNoteEvent :=
  (song.sections.flatMap (fun s => s.instrumentEvents)).filter
    (fun e => e.time = t)

/-- The grouped drum events for one time key. -/
def drumEventsAt (song : Song) (t : String) : List DrumEvent :=
  (song.sections.flatMap (fun s => s.drumEvents)).filter
    (fun e => e.time = t)

/-! ### Per-time dispatch callback (`song-scheduler.ts` lines 78-108) -/

inductive TriggerAction
  | pad (note : String) (duration : String) (velocity : ℚ)
  | voice (instrument : String) (note : String) (duration : String)
      (velocity : ℚ)
  | drum (voice : DrumVoice) (note : Option String) (duration : String)
      (velocity : ℚ)
deriving DecidableEq, Repr

/-- Keys of `Instruments.getMelodicSynths()`. -/
def MELODIC_IDS : List String :=
  ["pad", "melody", "bass", "texture", "subbass", "piano", "violin",
   "trumpet", "guitar", "contrabass"]

/-- The pad loop: every pad event triggered with the duration of the first
pad event of the batch. -/
def padLoop (padEvents : List InstrumentNoteEvent) (dur : String) :
    List TriggerAction :=
  padEvents.map (fun e => .pad e.note dur e.velocity)

/-- The instrument loop: skip pads, trigger the voice named by the
instrument tag when it exists in the synth record. -/
def instrLoop : List InstrumentNoteEvent → List TriggerAction
  | [] => []
  | e :: rest =>
    if e.instrument = "pad" then instrLoop rest
    else if e.instrument ∈ MELODIC_IDS then
      .voice e.instrument e.note e.duration e.velocity :: instrLoop rest
    else instrLoop rest

/-- The drum loop: kick gets `("C2", "8n")`, snare/hihat get `"32n"`. -/
def drumLoop : List DrumEvent → List TriggerAction
  | [] => []
  | d :: rest =>
    (match d.instrument with
     | .kick => TriggerAction.drum .kick (some "C2") "8n" d.velocity
     | .snare => TriggerAction.drum .snare none "32n" d.velocity
     | .hihat => TriggerAction.drum .hihat none "32n" d.velocity)
      :: drumLoop rest

/-- The scheduled callback for one time key: pad group, then remaining
instrument events, then drum events. -/
def dispatchBatch (instrument : List InstrumentNoteEvent)
    (drum : List DrumEvent) : List TriggerAction :=
  let padEvents := instrument.filter (fun e => e.instrument = "pad")
  (match padEvents with
   | [] => []
   | p :: _ => padLoop padEvents p.duration) ++
    instrLoop instrument ++ drumLoop drum

/-! ### Transport registrations -/

inductive CbKind
  | events
  | barUpdate
  | crackle
  | songEnd
deriving DecidableEq, Repr

structure Reg where
  id : Nat
  kind : CbKind
  once : Bool
  time : String
  interval : Option String
deriving DecidableEq, Repr

structure Transport where
  nextId : Nat
  regs : List Reg
deriving DecidableEq, Repr

/-- `transport.schedule(cb, time)`: one-shot registration, fresh handle. -/
def Transport.scheduleOnce (tr : Transport) (kind : CbKind) (time : String) :
    Nat × Transport :=
  (tr.nextId,
   ⟨tr.nextId + 1, tr.regs ++ [⟨tr.nextId, kind, true, time, none⟩]⟩)

/-- `transport.scheduleRepeat(cb, interval, start)`. -/
def Transport.scheduleRepeating (tr : Transport) (kind : CbKind)
    (interval start : String) : Nat × Transport :=
  (tr.nextId,
   ⟨tr.nextId + 1,
    tr.regs ++ [⟨tr.nextId, kind, false, start, some interval⟩]⟩)

/-- `transport.clear(id)`. -/
def Transport.clear (tr : Transport) (id : Nat) : Transport :=
  ⟨tr.nextId, tr.regs.filter (fun r => r.id ≠ id)⟩

/-- The engine's `clearScheduled` loop: clear every handle in a list. -/
def Transport.clearAll (tr : Transport) (ids : List Nat) : Transport :=
  ids.foldl Transport.clear tr

structure SchedOptions where
  onBar : Bool
  onSongEnd : Bool
deriving DecidableEq, Repr

/-- `SongScheduler.schedule`: one one-shot registration per sorted distinct
time, then the per-bar repeat (when `onBar` is given), the crackle repeat,
and the song-end one-shot at `` `${song.totalBars}:0:0` `` (when
`onSongEnd` is given); every handle is pushed onto the returned list. -/
def SongScheduler.schedule (song : Song) (opts : SchedOptions)
    (tr : Transport) : List Nat × Transport :=
  let step1 :=
    (sortedTimes song).foldl
      (fun (acc : List Nat × Transport) t =>
        let (id, tr1) := acc.2.scheduleOnce .events t
        (acc.1 ++ [id], tr1))
      (([] : List Nat), tr)
  let step2 :=
    if opts.onBar then
      let (id, tr1) := step1.2.scheduleRepeating .barUpdate "1m" "0:0:0"
      (step1.1 ++ [id], tr1)
    else step1
  let step3 :=
    let (id, tr1) := step2.2.scheduleRepeating .crackle "32n" "0:0:0"
    (step2.1 ++ [id], tr1)
  if opts.onSongEnd then
    let (id, tr1) :=
      step3.2.scheduleOnce .songEnd (Nat.repr song.totalBars ++ ":0:0")
    (step3.1 ++ [id], tr1)
  else step3

/-- One-shot firing semantics: a one-shot registration fires exactly at
the transport position equal to its registered time. -/
def firesAt (r : Reg) (pos : Nat × Nat × Nat) : Prop :=
  r.once = true ∧ decodeTime r.time = pos

instance : ∀ r pos, Decidable (firesAt r pos) := fun r pos => by
  unfold firesAt; infer_instance

/-! ### Per-bar repeating callback (`song-scheduler.ts` lines 112-131) -/

/-- `bar = Math.floor(time * (bpm / 60) / 4)`. -/
def barFromTime (time bpm : ℚ) : Int :=
  ⌊time * (bpm / 60) / 4⌋

/-- The cumulative scan over sections: first section whose bar window
contains `bar`. -/
def sectionAtBarAux : List Section → Int → Int → Option String
  | [], _, _ => none
  | s :: rest, bar, acc =>
    if bar ≥ acc ∧ bar < acc + (s.bars : Int) then some s.name
    else sectionAtBarAux rest bar (acc + (s.bars : Int))

/-- The body of the per-bar repeating callback: the `onBar` argument for
elapsed transport seconds `time` at tempo `bpm` (or `none` when no
section owns the bar and the hook is not invoked). -/
def barCallbackSectionName (song : Song) (time bpm : ℚ) : Option String :=
  sectionAtBarAux song.sections (barFromTime time bpm) 0

/-- Elapsed seconds at the `k`-th tick of the `"1m"` repeat under constant
tempo: one measure is `240 / bpm` seconds. -/
def barTickTime (bpm : ℚ) (k : Nat) : ℚ :=
  (k : ℚ) * (240 / bpm)

/-- The `onBar` invocations over the first `n` bar ticks. -/
def onBarInvocations (song : Song) (bpm : ℚ) (n : Nat) :
    List (Option String) :=
  (List.range n).map (fun k => barCallbackSectionName song (barTickTime bpm k) bpm)

/-! ### Engine facade (`engine.ts`) -/

structure EngineState where
  currentSong : Option Song
  scheduledIds : List Nat
  transport : Transport
  transportStarted : Bool
  crackleOn : Bool
  currentSectionName : String
  volume : ℚ
  masterVolume : ℚ
deriving DecidableEq, Repr

/-- `LofiEngine.clearScheduled`. -/
def LofiEngine.clearScheduled (st : EngineState) : EngineState :=
  { st with
    transport := st.transport.clearAll st.scheduledIds,
    scheduledIds := [] }

/-- `LofiEngine.playSong`: set the current song, clear the old schedule,
schedule the new song (both hooks are always passed), record the handles,
start crackle and transport. -/
def LofiEngine.playSong (song : Song) (st : EngineState) : EngineState :=
  let st1 := LofiEngine.clearScheduled { st with currentSong := some song }
  let idsTr := SongScheduler.schedule song ⟨true, true⟩ st1.transport
  { st1 with
    transport := idsTr.2,
    scheduledIds := st1.scheduledIds ++ idsTr.1,
    masterVolume := st1.volume, transportStarted := true,
    crackleOn := true }

/-- `LofiEngine.start(seed?)`: resume when a current song exists and no
seed is given; otherwise generate (from the seed, or the clock) and play.
`now` stands for `Date.now()`. -/
def LofiEngine.start (jm : JsMath) (seed : Option Nat) (now : Nat)
    (st : EngineState) : EngineState :=
  if st.currentSong.isSome ∧ seed = none then
    { st with
      masterVolume := st.volume, crackleOn := true,
      transportStarted := true }
  else
    LofiEngine.playSong (buildSong jm (seed.getD now)) st

/-! ### Spec-side descriptions used to state the claims -/

/-- The single drum dispatch step (kick gets note C2 and an 8n duration,
snare and hihat a 32n duration). -/
def drumAction (d : DrumEvent) : TriggerAction :=
  match d.instrument with
  | .kick => .drum .kick (some "C2") "8n" d.velocity
  | .snare => .drum .snare none "32n" d.velocity
  | .hihat => .drum .hihat none "32n" d.velocity

/-- Duration of the first pad event of a batch (`padEvents[0].duration`). -/
def firstPadDuration (instrument : List InstrumentNoteEvent) : String :=
  match instrument.filter (fun e => e.instrument = "pad") with
  | [] => ""
  | p :: _ => p.duration

/-- Strict composite order on `(bar, beat, sixteenth)`. -/
def tripleLt (p q : Nat × Nat × Nat) : Prop := tripleLe p q ∧ p ≠ q

/-- The registrations the events loop adds, ids counted from `n0`. -/
def evRegsFrom (n0 : Nat) : List String → List Reg
  | [] => []
  | t :: ts => ⟨n0, .events, true, t, none⟩ :: evRegsFrom (n0 + 1) ts

/-- The registrations added after the events loop: the optional per-bar
repeat, the crackle repeat, and the optional song-end one-shot. -/
def extraRegsList (opts : SchedOptions) (endTime : String) (n1 : Nat) :
    List Reg :=
  if opts.onBar then
    ⟨n1, .barUpdate, false, "0:0:0", some "1m"⟩ ::
      ⟨n1 + 1, .crackle, false, "0:0:0", some "32n"⟩ ::
      (if opts.onSongEnd then [⟨n1 + 2, .songEnd, true, endTime, none⟩]
       else [])
  else
    ⟨n1, .crackle, false, "0:0:0", some "32n"⟩ ::
      (if opts.onSongEnd then [⟨n1 + 1, .songEnd, true, endTime, none⟩]
       else [])

/-- The registrations a `schedule` call adds to the transport. -/
def newRegsOf (song : Song) (opts : SchedOptions) (tr : Transport) :
    List Reg :=
  (SongScheduler.schedule song opts tr).2.regs.drop tr.regs.length

/-- The times of the per-event-time registrations a `schedule` call makes,
in registration order. -/
def scheduledEventTimes (song : Song) (opts : SchedOptions) (tr : Transport) :
    List String :=
  ((newRegsOf song opts tr).filter (fun r => r.kind = CbKind.events)).map
    (fun r => r.time)

/-- The song-end registrations a `schedule` call makes. -/
def songEndRegs (song : Song) (opts : SchedOptions) (tr : Transport) :
    List Reg :=
  (newRegsOf song opts tr).filter (fun r => r.kind = CbKind.songEnd)

/-- Concrete pad events for the dispatch witnesses. -/
def wPad1 : InstrumentNoteEvent :=
  { time := "0:0:0", note := "C4", duration := "1m", velocity := 1,
    instrument := "pad" }

def wPad2 : InstrumentNoteEvent :=
  { time := "0:0:0", note := "E4", duration := "2m", velocity := 2,
    instrument := "pad" }

/-- A fixed FX snapshot for witness songs. -/
def wFx : FxParams :=
  { reverbDecay := 3, reverbMix := 1, delayMix := 1, filterCutoff := 1200,
    crackleMix := 1 }

/-- A fixed preset for witness songs (the real Chillhop entry). -/
def wPreset : LofiPreset := PRESETS.getD 1 default

/-- A concrete valuation of the abstract float transcendentals, used only
to instantiate witnesses (the theorems hold for every valuation). -/
def jmW : JsMath :=
  { sqrt := fun q => q, log := fun q => q, cos := fun q => q,
    sin := fun q => q, pi := 3 }

/-- A minimal empty witness song. -/
def wSongA : Song :=
  { seed := 0, preset := wPreset, key := "C", tempo := 75, swing := 0,
    sections := [], totalBars := 0, fxParams := wFx }

/-- A witness song with a handful of events at assorted times. -/
def w2Song : Song :=
  { wSongA with
    sections :=
      [{ name := "verse", startBar := 0, bars := 12, padVolume := 1,
         instrumentEvents :=
           [{ time := "1:0:0", note := "C4", duration := "1m",
              velocity := 1, instrument := "pad" },
            { time := "0:2:0", note := "E4", duration := "8n",
              velocity := 1, instrument := "melody" },
            { time := "0:2:0", note := "C2", duration := "4n",
              velocity := 1, instrument := "bass" },
            { time := "10:0:0", note := "G4", duration := "8n",
              velocity := 1, instrument := "melody" }],
         drumEvents :=
           [{ time := "2:1:3", instrument := .hihat, velocity := 1 },
            { time := "0:2:0", instrument := .kick, velocity := 1 }] }],
    totalBars := 12 }

/-- A witness song of 12 bars (for the song-end boundary scenario). -/
def wSong12 : Song :=
  { wSongA with
    sections :=
      [{ name := "verse", startBar := 0, bars := 12, padVolume := 1,
         instrumentEvents := [], drumEvents := [] }],
    totalBars := 12 }

/-- A witness song with a single 2-bar section (for the per-bar hook). -/
def wSongBar : Song :=
  { wSongA with
    sections :=
      [{ name := "intro", startBar := 0, bars := 2, padVolume := 1,
         instrumentEvents := [], drumEvents := [] }],
    totalBars := 2 }

/-- A transport carrying one pre-existing registration. -/
def wTransport : Transport :=
  ⟨0, [⟨100, .events, true, "0:0:0", none⟩]⟩

/-- An engine state holding a current song (for the resume witness). -/
def wEngine : EngineState :=
  { currentSong := some wSongA, scheduledIds := [5, 7],
    transport := ⟨0, []⟩, transportStarted := false, crackleOn := false,
    currentSectionName := "", volume := 1, masterVolume := 0 }

/-- An engine state with no current song. -/
def wEngineNone : EngineState :=
  { wEngine with currentSong := none }

/-! ## Theorems -/

/-- The instrument loop equals: drop pads, keep events whose tag names a
melodic synth, trigger each to its own voice in event order. -/
theorem instrLoop_eq (l : List InstrumentNoteEvent) :
    instrLoop l =
      (l.filter (fun e =>
        decide (e.instrument ≠ "pad" ∧ e.instrument ∈ MELODIC_IDS))).map
        (fun e => .voice e.instrument e.note e.duration e.velocity) := by
  induction l with
  | nil => rfl
  | cons e rest ih =>
    by_cases hp : e.instrument = "pad"
    · simp [instrLoop, hp, ih]
    · by_cases hm : e.instrument ∈ MELODIC_IDS
      · simp [instrLoop, hp, hm, ih]
      · simp [instrLoop, hp, hm, ih]

/-- The drum loop maps each drum event to its dispatch step in order. -/
theorem drumLoop_eq (l : List DrumEvent) : drumLoop l = l.map drumAction := by
  induction l with
  | nil => rfl
  | cons d rest ih =>
    cases h : d.instrument <;> simp [drumLoop, drumAction, h, ih]

/-- Shared decomposition of the per-time callback into the pad group, the
melodic part and the drum part. -/
theorem dispatchBatch_decomp (instrument : List InstrumentNoteEvent)
    (drum : List DrumEvent) :
    dispatchBatch instrument drum =
      (instrument.filter (fun e => e.instrument = "pad")).map
          (fun e =>
            TriggerAction.pad e.note (firstPadDuration instrument) e.velocity) ++
        (instrument.filter (fun e =>
          decide (e.instrument ≠ "pad" ∧ e.instrument ∈ MELODIC_IDS))).map
          (fun e => TriggerAction.voice e.instrument e.note e.duration
            e.velocity) ++
        drum.map drumAction := by
  simp only [dispatchBatch, padLoop, instrLoop_eq, drumLoop_eq]
  cases h : instrument.filter (fun e => e.instrument = "pad") with
  | nil => simp [firstPadDuration, h]
  | cons p rest => simp [firstPadDuration, h]

/-- C1: for every seed (and every valuation of the abstract float
transcendentals, which feed only velocity values), generating a Song
twice from the same seed with no overrides yields identical results — the
same section count, the same per-section bar counts, and element-wise
identical instrument and drum event lists: `buildSong` is a pure function
of the Mulberry32 stream seeded by `seed`, whose forks are pure state
snapshots. -/
theorem buildSong_deterministic (jm : JsMath) (seed : Nat) (s1 s2 : Song)
    (h1 : s1 = buildSong jm seed) (h2 : s2 = buildSong jm seed) :
    s1.sections.length = s2.sections.length ∧
    s1.sections.map Section.bars = s2.sections.map Section.bars ∧
    s1.sections.map Section.instrumentEvents =
      s2.sections.map Section.instrumentEvents ∧
    s1.sections.map Section.drumEvents = s2.sections.map Section.drumEvents := by
  rw [h1, h2]
  exact ⟨rfl, rfl, rfl, rfl⟩

/-- C1 witness: two generations from seed 1 agree component-wise. -/
theorem buildSong_deterministic_witness :
    (buildSong jmW 1).sections.length = (buildSong jmW 1).sections.length ∧
    (buildSong jmW 1).sections.map Section.bars =
      (buildSong jmW 1).sections.map Section.bars ∧
    (buildSong jmW 1).sections.map Section.instrumentEvents =
      (buildSong jmW 1).sections.map Section.instrumentEvents ∧
    (buildSong jmW 1).sections.map Section.drumEvents =
      (buildSong jmW 1).sections.map Section.drumEvents :=
  buildSong_deterministic jmW 1 (buildSong jmW 1) (buildSong jmW 1) rfl rfl

/-- C7 counterexample: in key C, major scale, the template `(2, "maj7")`
resolves with quality `"maj7"` taken verbatim from the template, while the
major-family diatonic table assigns `"min7"` to degree 2 — so the claim
that `resolveChordFromTemplate` returns the table's effective quality is
false. -/
theorem resolveChordFromTemplate_not_diatonic_quality :
    resolveChordFromTemplate "C" "major" (2, "maj7") = (62, "maj7") ∧
    (diatonicChord "C" "major" 2).2 = "min7" ∧
    ¬ ((resolveChordFromTemplate "C" "major" (2, "maj7")).2 =
        (diatonicChord "C" "major" 2).2) := by
  refine ⟨by decide, by decide, by decide⟩

/-- C7 amended: for every key, scale type and `[degree, quality]` template,
`resolveChordFromTemplate` returns the root pitch at the diatonic scale
degree of the key (through the chord-scale table, minor family for
minor/minPenta/dorian) and the template's own quality unchanged; the
diatonic-quality table contributes only the root, its quality being
discarded. -/
theorem resolveChordFromTemplate_spec (key scaleType : String)
    (degree : Int) (quality : String) :
    resolveChordFromTemplate key scaleType (degree, quality) =
      (nameToMidi (key ++ "4") +
        ((CHORD_SCALES.lookup scaleType).getD
            [0, 2, 4, 5, 7, 9, 11]).getD
          ((((degree - 1).tmod 7) + 7).tmod 7).toNat 0,
       quality) := by
  unfold resolveChordFromTemplate diatonicChord
  simp

/-- C8: the music-theory helpers never fail on malformed preset values:
unknown chord qualities fall back to the maj7 shape, unknown scale types
to the major scale (in `buildScale` and `getScaleNotes` alike), and
non-parsing note names to MIDI 60. -/
theorem musicTheory_fallbacks :
    (∀ (root : MidiNote) (q : String), CHORD_SHAPES.lookup q = none →
      buildChord root q = [root, root + 4, root + 7, root + 11]) ∧
    (∀ (rn st : String), SCALES.lookup st = none →
      buildScale rn st = buildScale rn "major") ∧
    (∀ (rn st : String) (lo hi : Int), SCALES.lookup st = none →
      getScaleNotes rn st lo hi = getScaleNotes rn "major" lo hi) ∧
    (∀ s : String, parseNoteName s = none → nameToMidi s = 60) := by
  refine ⟨?_, ?_, ?_, ?_⟩
  · intro root q h
    simp [buildChord, h]
  · intro rn st h
    unfold buildScale
    rw [h]
    rfl
  · intro rn st lo hi h
    unfold getScaleNotes
    rw [h]
    rfl
  · intro s h
    simp [nameToMidi, h]

/-- C8 witness: concrete malformed tags take the documented fallbacks. -/
theorem musicTheory_fallbacks_witness :
    buildChord 60 "weird" = [60, 64, 67, 71] ∧
    buildScale "C" "weird" = buildScale "C" "major" ∧
    getScaleNotes "C" "weird" 3 4 = getScaleNotes "C" "major" 3 4 ∧
    nameToMidi "H4" = 60 :=
  ⟨musicTheory_fallbacks.1 60 "weird" (by decide),
   musicTheory_fallbacks.2.1 "C" "weird" (by decide),
   musicTheory_fallbacks.2.2.1 "C" "weird" 3 4 (by decide),
   musicTheory_fallbacks.2.2.2 "H4" (by decide)⟩

/-- C6: when the callback for one time position fires, it dispatches in
the fixed order: all events tagged pad as one group (sharing the first
pad's duration), then every remaining instrument event to the voice named
by its tag in event-array order, then every drum event to its drum voice
in event-array order. -/
theorem dispatchBatch_dispatch_order (instrument : List InstrumentNoteEvent)
    (drum : List DrumEvent) :
    dispatchBatch instrument drum =
      (instrument.filter (fun e => e.instrument = "pad")).map
          (fun e =>
            TriggerAction.pad e.note (firstPadDuration instrument) e.velocity) ++
        (instrument.filter (fun e =>
          decide (e.instrument ≠ "pad" ∧ e.instrument ∈ MELODIC_IDS))).map
          (fun e => TriggerAction.voice e.instrument e.note e.duration
            e.velocity) ++
        drum.map drumAction :=
  dispatchBatch_decomp instrument drum

/-- C10: whenever two or more pad events share a time position, every pad
event of the batch is triggered with the duration of the first pad event;
the later pads' own duration fields are ignored at dispatch. -/
theorem padBatch_uses_first_duration (instrument : List InstrumentNoteEvent)
    (drum : List DrumEvent) (p : InstrumentNoteEvent)
    (rest : List InstrumentNoteEvent)
    (hp : instrument.filter (fun e => e.instrument = "pad") = p :: rest)
    (_h2 : rest ≠ []) :
    (∀ a ∈ dispatchBatch instrument drum, ∀ n dv v,
      a = TriggerAction.pad n dv v → dv = p.duration) ∧
    dispatchBatch instrument drum =
      (p :: rest).map (fun e => TriggerAction.pad e.note p.duration e.velocity) ++
        (instrument.filter (fun e =>
          decide (e.instrument ≠ "pad" ∧ e.instrument ∈ MELODIC_IDS))).map
          (fun e => TriggerAction.voice e.instrument e.note e.duration
            e.velocity) ++
        drum.map drumAction := by
  have hfpd : firstPadDuration instrument = p.duration := by
    unfold firstPadDuration
    rw [hp]
  have hd := dispatchBatch_decomp instrument drum
  rw [hp, hfpd] at hd
  refine ⟨?_, hd⟩
  intro a ha n dv v hav
  subst hav
  rw [hd] at ha
  simp only [List.mem_append, List.mem_map] at ha
  rcases ha with (⟨e, _, heq⟩ | ⟨e, _, heq⟩) | ⟨d0, _, heq⟩
  · exact ((TriggerAction.pad.injEq _ _ _ _ _ _).mp heq).2.1.symm
  · simp at heq
  · rcases d0 with ⟨t0, i0, v0⟩
    cases i0 <;> simp [drumAction] at heq

/-- C10 witness: a batch of two pads with durations 1m and 2m dispatches
both with the first pad's duration 1m; the second pad's 2m is ignored. -/
theorem padBatch_uses_first_duration_witness :
    ([wPad1, wPad2].filter (fun e => e.instrument = "pad") = wPad1 :: [wPad2]) ∧
    ([wPad2] ≠ ([] : List InstrumentNoteEvent)) ∧
    dispatchBatch [wPad1, wPad2] [] =
      [TriggerAction.pad "C4" "1m" 1, TriggerAction.pad "E4" "1m" 2] := by
  refine ⟨by decide, by decide, ?_⟩
  have h := (padBatch_uses_first_duration [wPad1, wPad2] [] wPad1 [wPad2]
    (by decide) (by decide)).2
  rw [h]
  decide

/-- C9: `start()` with no seed while a current Song exists resumes
playback — the current Song and the scheduled handle list are unchanged —
and a new Song is generated exactly when no current Song exists or a seed
is explicitly given. -/
theorem start_generates_only_without_song_or_with_seed :
    (∀ (jm : JsMath) (st : EngineState) (now : Nat) (song : Song),
      st.currentSong = some song →
        (LofiEngine.start jm none now st).currentSong = st.currentSong ∧
        (LofiEngine.start jm none now st).scheduledIds = st.scheduledIds ∧
        (LofiEngine.start jm none now st).transport = st.transport) ∧
    (∀ (jm : JsMath) (st : EngineState) (now : Nat),
      st.currentSong = none →
        (LofiEngine.start jm none now st).currentSong =
          some (buildSong jm now)) ∧
    (∀ (jm : JsMath) (st : EngineState) (now sd : Nat),
      (LofiEngine.start jm (some sd) now st).currentSong =
        some (buildSong jm sd)) := by
  refine ⟨?_, ?_, ?_⟩
  · intro jm st now song h
    unfold LofiEngine.start
    rw [if_pos ⟨by rw [h]; rfl, rfl⟩]
    exact ⟨rfl, rfl, rfl⟩
  · intro jm st now h
    unfold LofiEngine.start
    rw [if_neg (by rw [h]; simp)]
    rfl
  · intro jm st now sd
    unfold LofiEngine.start
    rw [if_neg (by simp)]
    rfl

/-- C9 witness: with a current song and no seed, resume leaves the song
and handles alone; with an explicit seed (or no current song) a fresh song
is generated. -/
theorem start_generates_only_without_song_or_with_seed_witness :
    wEngine.currentSong = some wSongA ∧
    (LofiEngine.start jmW none 42 wEngine).currentSong =
      wEngine.currentSong ∧
    (LofiEngine.start jmW none 42 wEngine).scheduledIds =
      wEngine.scheduledIds ∧
    wEngineNone.currentSong = none ∧
    (LofiEngine.start jmW none 42 wEngineNone).currentSong =
      some (buildSong jmW 42) ∧
    (LofiEngine.start jmW (some 5) 42 wEngine).currentSong =
      some (buildSong jmW 5) :=
  ⟨rfl,
   (start_generates_only_without_song_or_with_seed.1 jmW wEngine 42 wSongA
     rfl).1,
   (start_generates_only_without_song_or_with_seed.1 jmW wEngine 42 wSongA
     rfl).2.1,
   rfl,
   start_generates_only_without_song_or_with_seed.2.1 jmW wEngineNone 42 rfl,
   start_generates_only_without_song_or_with_seed.2.2 jmW wEngine 42 5⟩

/-! ### Scheduler bookkeeping lemmas -/

/-- Clearing a handle list removes exactly the registrations whose id is
in the list. -/
theorem mem_clearAll_regs (ids : List Nat) (tr : Transport) (r : Reg) :
    r ∈ (tr.clearAll ids).regs ↔ r ∈ tr.regs ∧ r.id ∉ ids := by
  induction ids generalizing tr with
  | nil => simp [Transport.clearAll]
  | cons i is ih =>
    have hstep : tr.clearAll (i :: is) = (tr.clear i).clearAll is := rfl
    rw [hstep, ih]
    simp only [Transport.clear, List.mem_filter, List.mem_cons, not_or,
      decide_eq_true_eq]
    tauto

/-- Closed form of the events loop of `SongScheduler.schedule`. -/
theorem schedule_eventsFold (ts : List String) (ids0 : List Nat)
    (tr : Transport) :
    ts.foldl
      (fun (acc : List Nat × Transport) t =>
        let (id, tr1) := acc.2.scheduleOnce .events t
        (acc.1 ++ [id], tr1)) (ids0, tr) =
      (ids0 ++ (evRegsFrom tr.nextId ts).map Reg.id,
       ⟨tr.nextId + ts.length, tr.regs ++ evRegsFrom tr.nextId ts⟩) := by
  induction ts generalizing ids0 tr with
  | nil => simp [evRegsFrom]
  | cons t ts ih =>
    rw [List.foldl_cons]
    show List.foldl _
      (ids0 ++ [tr.nextId],
       (⟨tr.nextId + 1,
         tr.regs ++ [⟨tr.nextId, .events, true, t, none⟩]⟩ : Transport)) ts = _
    rw [ih]
    simp [evRegsFrom, List.append_assoc]
    omega

/-- Closed form of `SongScheduler.schedule`: the returned handles are the
ids of the added registrations, and the transport gains exactly the event
registrations followed by the extra registrations. -/
theorem schedule_closed_form (song : Song) (opts : SchedOptions)
    (tr : Transport) :
    SongScheduler.schedule song opts tr =
      ((evRegsFrom tr.nextId (sortedTimes song) ++
          extraRegsList opts (Nat.repr song.totalBars ++ ":0:0")
            (tr.nextId + (sortedTimes song).length)).map Reg.id,
       ⟨tr.nextId + (sortedTimes song).length +
          (extraRegsList opts (Nat.repr song.totalBars ++ ":0:0")
            (tr.nextId + (sortedTimes song).length)).length,
        tr.regs ++
          (evRegsFrom tr.nextId (sortedTimes song) ++
            extraRegsList opts (Nat.repr song.totalBars ++ ":0:0")
              (tr.nextId + (sortedTimes song).length))⟩) := by
  rcases opts with ⟨ob, oe⟩
  unfold SongScheduler.schedule
  rw [schedule_eventsFold]
  cases ob <;> cases oe <;>
    simp [extraRegsList, Transport.scheduleRepeating, Transport.scheduleOnce,
      List.append_assoc]

/-- Every registration the events loop adds is a one-shot event callback. -/
theorem evRegsFrom_kind (n0 : Nat) (ts : List String) :
    ∀ r ∈ evRegsFrom n0 ts, r.kind = .events ∧ r.once = true := by
  induction ts generalizing n0 with
  | nil => simp [evRegsFrom]
  | cons t ts ih =>
    intro r hr
    simp only [evRegsFrom] at hr
    rcases List.mem_cons.mp hr with rfl | hr2
    · exact ⟨rfl, rfl⟩
    · exact ih (n0 + 1) r hr2

/-- The event registrations carry exactly the sorted times, in order. -/
theorem evRegsFrom_map_time (n0 : Nat) (ts : List String) :
    (evRegsFrom n0 ts).map (fun r => r.time) = ts := by
  induction ts generalizing n0 with
  | nil => rfl
  | cons t ts ih => simp [evRegsFrom, ih]

/-- The registrations a schedule call adds, in closed form. -/
theorem newRegsOf_eq (song : Song) (opts : SchedOptions) (tr : Transport) :
    newRegsOf song opts tr =
      evRegsFrom tr.nextId (sortedTimes song) ++
        extraRegsList opts (Nat.repr song.totalBars ++ ":0:0")
          (tr.nextId + (sortedTimes song).length) := by
  unfold newRegsOf
  rw [schedule_closed_form]
  simp [List.drop_left]

/-- The returned handle list, in closed form. -/
theorem schedule_ids_eq (song : Song) (opts : SchedOptions) (tr : Transport) :
    (SongScheduler.schedule song opts tr).1 =
      (newRegsOf song opts tr).map Reg.id := by
  rw [newRegsOf_eq, schedule_closed_form]

/-! ### Decimal rendering and parsing round-trip -/

theorem charsToNat_append_digit (l : List Char) (c : Char) :
    charsToNat (l ++ [c]) =
      charsToNat l * 10 + (Char.toNat c - Char.toNat '0') := by
  simp [charsToNat, List.foldl_append]

theorem digitChar_isDigit : ∀ n, n < 10 → (Nat.digitChar n).isDigit = true := by
  decide

theorem digitChar_toNat : ∀ n, n < 10 →
    Char.toNat (Nat.digitChar n) - Char.toNat '0' = n := by
  decide

theorem isDigit_ne_colon (c : Char) (h : c.isDigit = true) : c ≠ ':' :=
  fun heq => absurd (heq ▸ h) (by decide)

theorem toDigitsCore_acc (fuel : Nat) : ∀ (n : Nat) (acc : List Char),
    Nat.toDigitsCore 10 fuel n acc = Nat.toDigitsCore 10 fuel n [] ++ acc := by
  induction fuel with
  | zero => intro n acc; simp [Nat.toDigitsCore]
  | succ f ih =>
    intro n acc
    simp only [Nat.toDigitsCore]
    by_cases h : n / 10 = 0
    · simp [h]
    · rw [if_neg h, if_neg h, ih (n / 10) (Nat.digitChar (n % 10) :: acc),
        ih (n / 10) [Nat.digitChar (n % 10)]]
      simp

theorem toDigitsCore_fuel (n : Nat) : ∀ f1 f2, n < f1 → n < f2 →
    Nat.toDigitsCore 10 f1 n [] = Nat.toDigitsCore 10 f2 n [] := by
  induction n using Nat.strong_induction_on with
  | _ n ih =>
    intro f1 f2 h1 h2
    match f1, f2 with
    | g1 + 1, g2 + 1 =>
      simp only [Nat.toDigitsCore]
      by_cases h : n / 10 = 0
      · simp [h]
      · rw [if_neg h, if_neg h, toDigitsCore_acc g1, toDigitsCore_acc g2]
        have hdlt : n / 10 < n := Nat.div_lt_self (by omega) (by omega)
        rw [ih (n / 10) hdlt g1 g2 (by omega) (by omega)]

theorem toDigits_lt (n : Nat) (h : n < 10) :
    Nat.toDigits 10 n = [Nat.digitChar n] := by
  simp [Nat.toDigits, Nat.toDigitsCore, Nat.div_eq_of_lt h,
    Nat.mod_eq_of_lt h]

theorem toDigits_ge (n : Nat) (h : 10 ≤ n) :
    Nat.toDigits 10 n =
      Nat.toDigits 10 (n / 10) ++ [Nat.digitChar (n % 10)] := by
  have hne : ¬ (n / 10 = 0) := by omega
  have hdlt : n / 10 < n := Nat.div_lt_self (by omega) (by omega)
  show Nat.toDigitsCore 10 (n + 1) n [] = _
  simp only [Nat.toDigitsCore]
  rw [if_neg hne, toDigitsCore_acc n (n / 10)]
  rw [toDigitsCore_fuel (n / 10) n (n / 10 + 1) (by omega) (by omega)]
  rfl

theorem toDigits_all_isDigit (n : Nat) (c : Char)
    (hc : c ∈ Nat.toDigits 10 n) : c.isDigit = true := by
  induction n using Nat.strong_induction_on generalizing c with
  | _ n IH =>
    by_cases h : n < 10
    · rw [toDigits_lt n h, List.mem_singleton] at hc
      subst hc
      exact digitChar_isDigit n h
    · rw [toDigits_ge n (by omega)] at hc
      rcases List.mem_append.mp hc with hm | hm
      · exact IH (n / 10) (Nat.div_lt_self (by omega) (by omega)) c hm
      · rw [List.mem_singleton] at hm
        subst hm
        exact digitChar_isDigit (n % 10) (Nat.mod_lt n (by omega))

theorem toDigits_ne_nil (n : Nat) : Nat.toDigits 10 n ≠ [] := by
  by_cases h : n < 10
  · rw [toDigits_lt n h]; simp
  · rw [toDigits_ge n (by omega)]; simp

theorem charsToNat_toDigits (n : Nat) :
    charsToNat (Nat.toDigits 10 n) = n := by
  induction n using Nat.strong_induction_on with
  | _ n ih =>
    by_cases h : n < 10
    · rw [toDigits_lt n h]
      show charsToNat ([] ++ [Nat.digitChar n]) = n
      rw [charsToNat_append_digit, digitChar_toNat n h]
      simp [charsToNat]
    · rw [toDigits_ge n (by omega), charsToNat_append_digit,
        ih (n / 10) (Nat.div_lt_self (by omega) (by omega)),
        digitChar_toNat (n % 10) (Nat.mod_lt n (by omega))]
      omega

theorem repr_data (n : Nat) : (Nat.repr n).data = Nat.toDigits 10 n := rfl

/-! ### Splitting lemmas -/

theorem splitCharsOn_ne_nil (sep : Char) (l : List Char) :
    splitCharsOn sep l ≠ [] := by
  induction l with
  | nil => simp [splitCharsOn]
  | cons c rest ih =>
    by_cases h : c = sep
    · simp [splitCharsOn, h]
    · simp only [splitCharsOn, if_neg h]
      cases hs : splitCharsOn sep rest with
      | nil => simp
      | cons p ps => simp

theorem splitCharsOn_no_sep_append (sep : Char) (l1 rest : List Char)
    (h : ∀ c ∈ l1, c ≠ sep) :
    splitCharsOn sep (l1 ++ sep :: rest) = l1 :: splitCharsOn sep rest := by
  induction l1 with
  | nil => simp [splitCharsOn]
  | cons c l1 ih =>
    have hc : c ≠ sep := h c (by simp)
    have ih2 := ih (fun d hd => h d (by simp [hd]))
    simp only [List.cons_append, splitCharsOn, List.append_eq, if_neg hc]
    rw [ih2]

theorem splitCharsOn_no_sep (sep : Char) (l : List Char)
    (h : ∀ c ∈ l, c ≠ sep) :
    splitCharsOn sep l = [l] := by
  induction l with
  | nil => rfl
  | cons c l1 ih =>
    have hc : c ≠ sep := h c (by simp)
    have ih2 := ih (fun d hd => h d (by simp [hd]))
    simp [splitCharsOn, if_neg hc, ih2]

theorem decDigits_toDigits (n : Nat) :
    decDigits (Nat.toDigits 10 n) = some n := by
  unfold decDigits
  rw [if_pos]
  · rw [charsToNat_toDigits]
  · exact ⟨toDigits_ne_nil n,
      List.all_eq_true.mpr (fun c hc => toDigits_all_isDigit n c hc)⟩

theorem string_data_append (a b : String) : (a ++ b).data = a.data ++ b.data :=
  rfl

/-- The song-end time string `` `${n}:0:0` `` decodes to `(n, 0, 0)`. -/
theorem parseTimeTriple_repr (n : Nat) :
    parseTimeTriple (Nat.repr n ++ ":0:0") = some (n, 0, 0) := by
  have hdata : (Nat.repr n ++ ":0:0").data =
      Nat.toDigits 10 n ++ ':' :: ['0', ':', '0'] := by
    rw [string_data_append, repr_data]
  unfold parseTimeTriple
  rw [hdata, splitCharsOn_no_sep_append ':' (Nat.toDigits 10 n) _
    (fun c hc => isDigit_ne_colon c (toDigits_all_isDigit n c hc))]
  have hrest : splitCharsOn ':' ['0', ':', '0'] = [['0'], ['0']] := by decide
  rw [hrest]
  change (match decDigits (Nat.toDigits 10 n), decDigits ['0'],
      decDigits ['0'] with
    | some b, some t, some x => if t < 4 ∧ x < 4 then some (b, t, x) else none
    | _, _, _ => none) = some (n, 0, 0)
  rw [decDigits_toDigits, show decDigits ['0'] = some 0 from by decide]
  simp

theorem decodeTime_repr (n : Nat) :
    decodeTime (Nat.repr n ++ ":0:0") = (n, 0, 0) := by
  unfold decodeTime
  rw [parseTimeTriple_repr]
  rfl

/-- C3: every registration made on the transport during a `schedule` call
has its handle in the returned list, so clearing every returned handle
leaves only registrations that existed before the call — no callback
registered by the call can fire again. -/
theorem schedule_returns_all_handles (song : Song) (opts : SchedOptions)
    (tr : Transport) :
    (∀ r ∈ (SongScheduler.schedule song opts tr).2.regs,
      r ∈ tr.regs ∨ r.id ∈ (SongScheduler.schedule song opts tr).1) ∧
    (∀ r ∈ ((SongScheduler.schedule song opts tr).2.clearAll
        (SongScheduler.schedule song opts tr).1).regs, r ∈ tr.regs) := by
  have hregs : (SongScheduler.schedule song opts tr).2.regs =
      tr.regs ++ newRegsOf song opts tr := by
    rw [schedule_closed_form, newRegsOf_eq]
  have hids := schedule_ids_eq song opts tr
  constructor
  · intro r hr
    rw [hregs] at hr
    rcases List.mem_append.mp hr with h | h
    · exact Or.inl h
    · exact Or.inr (by rw [hids]; exact List.mem_map_of_mem _ h)
  · intro r hr
    rw [mem_clearAll_regs] at hr
    obtain ⟨hr1, hr2⟩ := hr
    rw [hregs] at hr1
    rcases List.mem_append.mp hr1 with h | h
    · exact h
    · exact absurd (by rw [hids]; exact List.mem_map_of_mem _ h) hr2

/-- C3 witness: a pre-existing registration survives clearing the handle
list returned by a concrete schedule call. -/
theorem schedule_returns_all_handles_witness :
    (⟨100, .events, true, "0:0:0", none⟩ : Reg) ∈
      ((SongScheduler.schedule wSongA ⟨true, true⟩ wTransport).2.clearAll
        (SongScheduler.schedule wSongA ⟨true, true⟩ wTransport).1).regs ∧
    (⟨100, .events, true, "0:0:0", none⟩ : Reg) ∈ wTransport.regs :=
  ⟨by decide,
   (schedule_returns_all_handles wSongA ⟨true, true⟩ wTransport).2
     ⟨100, .events, true, "0:0:0", none⟩ (by decide)⟩

/-- The song-end registration of a schedule call, in closed form. -/
theorem songEndRegs_eq (song : Song) (opts : SchedOptions) (tr : Transport)
    (h : opts.onSongEnd = true) :
    songEndRegs song opts tr =
      [⟨tr.nextId + (sortedTimes song).length +
          (if opts.onBar then 2 else 1),
        .songEnd, true, Nat.repr song.totalBars ++ ":0:0", none⟩] := by
  unfold songEndRegs
  rw [newRegsOf_eq, List.filter_append]
  have hA : (evRegsFrom tr.nextId (sortedTimes song)).filter
      (fun r => decide (r.kind = CbKind.songEnd)) = [] := by
    rw [List.filter_eq_nil_iff]
    intro r hr
    have hk := (evRegsFrom_kind _ _ r hr).1
    simp [hk]
  rcases opts with ⟨ob, oe⟩
  simp only at h
  subst h
  cases ob <;> simp [extraRegsList, hA]

/-- A duplicate-free run matches a fixed position exactly once, provided
it contains it. -/
theorem countP_eq_one_of_nodup_mem {A : Type} [DecidableEq A] (T : A)
    (run : List A) (hnd : run.Nodup) (hmem : T ∈ run) :
    run.countP (fun x => decide (x = T)) = 1 := by
  induction run with
  | nil => cases hmem
  | cons a l ih =>
    rw [List.countP_cons]
    rcases List.mem_cons.mp hmem with rfl | hm
    · have hz : l.countP (fun x => decide (x = T)) = 0 := by
        rw [List.countP_eq_zero]
        intro x hx
        simp only [decide_eq_true_eq]
        exact fun he => (List.nodup_cons.mp hnd).1 (he ▸ hx)
      simp [hz]
    · have hne : ¬ (a = T) := fun he => (List.nodup_cons.mp hnd).1 (he ▸ hm)
      rw [ih (List.nodup_cons.mp hnd).2 hm]
      simp [hne]

/-- C4: scheduling with an `onSongEnd` hook registers exactly one song-end
one-shot, at `totalBars:0:0`; it fires exactly once on any duplicate-free
run of transport positions reaching that boundary and never at an earlier
position. -/
theorem songEnd_fires_once_at_totalBars (song : Song) (opts : SchedOptions)
    (tr : Transport) (h : opts.onSongEnd = true) :
    ∃ r : Reg,
      songEndRegs song opts tr = [r] ∧
      r.once = true ∧
      r.time = Nat.repr song.totalBars ++ ":0:0" ∧
      decodeTime r.time = (song.totalBars, 0, 0) ∧
      (∀ pos, firesAt r pos ↔ pos = (song.totalBars, 0, 0)) ∧
      (∀ run : List (Nat × Nat × Nat), run.Nodup →
        (song.totalBars, 0, 0) ∈ run →
        run.countP (fun pos => decide (firesAt r pos)) = 1) ∧
      (∀ pos, firesAt r pos → ¬ tripleLt pos (song.totalBars, 0, 0)) := by
  have hiff : ∀ pos,
      firesAt (⟨tr.nextId + (sortedTimes song).length +
          (if opts.onBar then 2 else 1),
        .songEnd, true, Nat.repr song.totalBars ++ ":0:0", none⟩ : Reg) pos ↔
        pos = (song.totalBars, 0, 0) := by
    intro pos
    unfold firesAt
    simp only [decodeTime_repr song.totalBars, true_and]
    simp [eq_comm]
  refine ⟨_, songEndRegs_eq song opts tr h, rfl, rfl,
    decodeTime_repr song.totalBars, hiff, ?_, ?_⟩
  · intro run hnd hmem
    have hcong : run.countP (fun pos => decide (firesAt
        (⟨tr.nextId + (sortedTimes song).length +
            (if opts.onBar then 2 else 1),
          .songEnd, true, Nat.repr song.totalBars ++ ":0:0", none⟩ : Reg)
        pos)) =
          run.countP (fun pos => decide (pos = (song.totalBars, 0, 0))) := by
      apply List.countP_congr
      intro pos _
      simp [hiff pos]
    rw [hcong]
    exact countP_eq_one_of_nodup_mem _ run hnd hmem
  · intro pos hf
    rw [(hiff pos).mp hf]
    exact fun hlt => hlt.2 rfl

/-- C4 witness: with `totalBars = 12` the song-end hook is registered at
`12:0:0` (which decodes to bar 12, beat 0, sixteenth 0) and fires exactly
once. -/
theorem songEnd_fires_once_witness :
    ((⟨true, true⟩ : SchedOptions).onSongEnd = true) ∧
    decodeTime "12:0:0" = (12, 0, 0) ∧
    (∃ r : Reg,
      songEndRegs wSong12 ⟨true, true⟩ ⟨0, []⟩ = [r] ∧
      r.once = true ∧
      r.time = Nat.repr wSong12.totalBars ++ ":0:0" ∧
      decodeTime r.time = (wSong12.totalBars, 0, 0) ∧
      (∀ pos, firesAt r pos ↔ pos = (wSong12.totalBars, 0, 0)) ∧
      (∀ run : List (Nat × Nat × Nat), run.Nodup →
        (wSong12.totalBars, 0, 0) ∈ run →
        run.countP (fun pos => decide (firesAt r pos)) = 1) ∧
      (∀ pos, firesAt r pos → ¬ tripleLt pos (wSong12.totalBars, 0, 0))) :=
  ⟨rfl, by decide,
   songEnd_fires_once_at_totalBars wSong12 ⟨true, true⟩ ⟨0, []⟩ rfl⟩

/-- C5 counterexample: the per-bar repeating callback invokes the hook on
every bar of a section, not only on section entry — with one 2-bar section
both of the first two ticks invoke the hook with the same section name. -/
theorem onBar_fires_each_bar_counterexample :
    onBarInvocations wSongBar 60 2 = [some "intro", some "intro"] ∧
    1 < (onBarInvocations wSongBar 60 2).count (some "intro") := by
  have h0 : barFromTime (barTickTime 60 0) 60 = 0 := by
    unfold barFromTime barTickTime
    norm_num
  have h1 : barFromTime (barTickTime 60 1) 60 = 1 := by
    unfold barFromTime barTickTime
    norm_num
  have he : onBarInvocations wSongBar 60 2 = [some "intro", some "intro"] := by
    unfold onBarInvocations barCallbackSectionName
    rw [show List.range 2 = [0, 1] from rfl]
    simp only [List.map_cons, List.map_nil, h0, h1]
    norm_num [sectionAtBarAux, wSongBar, wSongA]
  refine ⟨he, ?_⟩
  rw [he]
  decide

/-- C5 amended: under constant tempo the per-bar repeating callback fires
once per bar, invoking the hook with the name of the section owning the
current bar (every bar of a section repeats that section's name; past the
last section no invocation is made) — not merely once per section entry. -/
theorem barCallback_reports_owning_section_every_bar (song : Song)
    (bpm : ℚ) (hb : 0 < bpm) (k : Nat) :
    barCallbackSectionName song (barTickTime bpm k) bpm =
      sectionAtBarAux song.sections (k : Int) 0 := by
  unfold barCallbackSectionName
  have hbpm : bpm ≠ 0 := ne_of_gt hb
  have harg : barFromTime (barTickTime bpm k) bpm = (k : Int) := by
    unfold barFromTime barTickTime
    have hr : (k : ℚ) * (240 / bpm) * (bpm / 60) / 4 =
        (k : ℚ) * (bpm / bpm) := by ring
    rw [hr, div_self hbpm, mul_one]
    exact Int.floor_natCast k
  rw [harg]

/-- C5 witness: at tempo 60 the second bar tick reports the section owning
bar 1 (the same "intro" section that bar 0 reported). -/
theorem barCallback_reports_owning_section_witness :
    (0 : ℚ) < 60 ∧
    barCallbackSectionName wSongBar (barTickTime 60 1) 60 =
      sectionAtBarAux wSongBar.sections 1 0 :=
  ⟨by norm_num,
   barCallback_reports_owning_section_every_bar wSongBar 60 (by norm_num) 1⟩

/-! ### Time-string parsing facts (toward the scheduling-order claim) -/

theorem digit_not_ws (c : Char) (h : c.isDigit = true) :
    c.isWhitespace = false := by
  by_contra hws
  rw [Bool.not_eq_false] at hws
  unfold Char.isWhitespace at hws
  simp only [Bool.or_eq_true, decide_eq_true_eq] at hws
  rcases hws with ((rfl | rfl) | rfl) | rfl <;> exact absurd h (by decide)

theorem digit_ne_minus (c : Char) (h : c.isDigit = true) : c ≠ '-' :=
  fun heq => absurd (heq ▸ h) (by decide)

theorem digit_ne_plus (c : Char) (h : c.isDigit = true) : c ≠ '+' :=
  fun heq => absurd (heq ▸ h) (by decide)

/-- An all-digit component is parsed by `parseInt || 0` to its value. -/
theorem jsParseIntOr0_decDigits (cs : List Char) (n : Nat)
    (h : decDigits cs = some n) : jsParseIntOr0 cs = (n : Int) := by
  unfold decDigits at h
  by_cases hc : cs ≠ [] ∧ cs.all Char.isDigit
  · rw [if_pos hc] at h
    obtain ⟨hne, hall⟩ := hc
    injection h with hn
    match cs, hne with
    | c :: rest, _ =>
      have hcd : c.isDigit = true := by
        have := List.all_eq_true.mp hall c (by simp)
        simpa using this
      have hws : c.isWhitespace = false := digit_not_ws c hcd
      unfold jsParseIntOr0 jsParseInt
      rw [List.dropWhile_cons, if_neg (by simp [hws])]
      simp only [jsParseIntCore]
      rw [if_neg (digit_ne_minus c hcd), if_neg (digit_ne_plus c hcd)]
      have htw : (c :: rest).takeWhile Char.isDigit = c :: rest :=
        List.takeWhile_eq_self_iff.mpr (by
          intro x hx
          have := List.all_eq_true.mp hall x hx
          simpa using this)
      rw [htw, if_neg (by simp)]
      simp [hn]
  · rw [if_neg hc] at h
    cases h

/-- Inversion of a successful time-triple parse: three all-digit
components with in-range beat and sixteenth. -/
theorem parseTimeTriple_inv (s : String) (b t x : Nat)
    (h : parseTimeTriple s = some (b, t, x)) :
    ∃ cb ct cx, splitCharsOn ':' s.data = [cb, ct, cx] ∧
      decDigits cb = some b ∧ decDigits ct = some t ∧
      decDigits cx = some x ∧ t < 4 ∧ x < 4 := by
  unfold parseTimeTriple at h
  split at h
  next cb ct cx heq =>
    split at h
    next nb nt nx hb ht hx =>
      split at h
      next hbd =>
        injection h with h2
        injection h2 with e1 e23
        injection e23 with e2 e3
        subst e1
        subst e2
        subst e3
        exact ⟨cb, ct, cx, heq, hb, ht, hx, hbd⟩
      next => cases h
    next => cases h
  next => cases h

/-- A parsed time triple has its beat and sixteenth below 4. -/
theorem parseTimeTriple_bounds (s : String) (b t x : Nat)
    (h : parseTimeTriple s = some (b, t, x)) : t < 4 ∧ x < 4 := by
  obtain ⟨_, _, _, _, _, _, _, hb, hx⟩ := parseTimeTriple_inv s b t x h
  exact ⟨hb, hx⟩

/-- On a well-formed time string, `compareTransportTime`'s numeric parse
computes the mixed-radix encoding `16*bar + 4*beat + sixteenth`. -/
theorem transportParse_eq (s : String) (b t x : Nat)
    (h : parseTimeTriple s = some (b, t, x)) :
    transportParse s = (b : Int) * 16 + (t : Int) * 4 + (x : Int) := by
  obtain ⟨cb, ct, cx, heq, hb, ht2, hx2, -, -⟩ :=
    parseTimeTriple_inv s b t x h
  unfold transportParse
  rw [heq]
  simp only [List.map_cons, List.map_nil]
  rw [jsParseIntOr0_decDigits cb b hb, jsParseIntOr0_decDigits ct t ht2,
    jsParseIntOr0_decDigits cx x hx2]
  simp [List.getD]

/-- On bounded triples the composite order coincides with the mixed-radix
encoding order. -/
theorem tripleLe_iff_encode (b1 t1 x1 b2 t2 x2 : Nat)
    (ht1 : t1 < 4) (hx1 : x1 < 4) (ht2 : t2 < 4) (hx2 : x2 < 4) :
    tripleLe (b1, t1, x1) (b2, t2, x2) ↔
      (b1 : Int) * 16 + (t1 : Int) * 4 + (x1 : Int) ≤
        (b2 : Int) * 16 + (t2 : Int) * 4 + (x2 : Int) := by
  unfold tripleLe
  simp only
  omega

/-! ### Distinct keys and sorted order -/

theorem insertTime_fold_nodup (l : List String) :
    ∀ acc : List String, acc.Nodup → (l.foldl insertTime acc).Nodup := by
  induction l with
  | nil => intro acc h; exact h
  | cons t ts ih =>
    intro acc h
    rw [List.foldl_cons]
    apply ih
    unfold insertTime
    by_cases hmem : t ∈ acc
    · rw [if_pos hmem]; exact h
    · rw [if_neg hmem]
      simp [List.nodup_append, h, hmem]

theorem mem_insertTime_fold (l : List String) :
    ∀ (acc : List String) (x : String),
      x ∈ l.foldl insertTime acc ↔ x ∈ acc ∨ x ∈ l := by
  induction l with
  | nil => intro acc x; simp
  | cons t ts ih =>
    intro acc x
    rw [List.foldl_cons, ih]
    unfold insertTime
    by_cases hmem : t ∈ acc
    · rw [if_pos hmem]
      constructor
      · rintro (hx | hx)
        · exact Or.inl hx
        · exact Or.inr (by simp [hx])
      · rintro (hx | hx)
        · exact Or.inl hx
        · rcases List.mem_cons.mp hx with rfl | hx2
          · exact Or.inl hmem
          · exact Or.inr hx2
    · rw [if_neg hmem]
      simp only [List.mem_append, List.mem_singleton, List.mem_cons]
      tauto

theorem distinctTimes_nodup (song : Song) : (distinctTimes song).Nodup :=
  insertTime_fold_nodup (songEventTimes song) [] List.nodup_nil

theorem mem_distinctTimes (song : Song) (t : String) :
    t ∈ distinctTimes song ↔ t ∈ songEventTimes song := by
  unfold distinctTimes
  rw [mem_insertTime_fold]
  simp

theorem sortedTimes_nodup (song : Song) : (sortedTimes song).Nodup :=
  (List.perm_insertionSort timeLe (distinctTimes song)).nodup_iff.mpr
    (distinctTimes_nodup song)

theorem mem_sortedTimes (song : Song) (t : String) :
    t ∈ sortedTimes song ↔ t ∈ songEventTimes song := by
  unfold sortedTimes
  rw [List.mem_insertionSort]
  exact mem_distinctTimes song t

/-- C2: for a Song whose event times are all well-formed
`bar:beat:sixteenth` strings (beat and sixteenth below 4), a schedule call
registers exactly one per-time callback per distinct event time, and the
sequence of registration times, decoded to `(bar, beat, sixteenth)`, is
non-decreasing in the composite field-wise order. -/
theorem schedule_one_callback_per_time_sorted (song : Song)
    (opts : SchedOptions) (tr : Transport)
    (h : ∀ t ∈ songEventTimes song, wellFormedTime t) :
    scheduledEventTimes song opts tr = sortedTimes song ∧
    (sortedTimes song).Nodup ∧
    (∀ t, t ∈ sortedTimes song ↔ t ∈ songEventTimes song) ∧
    List.Chain' (fun a b => tripleLe (decodeTime a) (decodeTime b))
      (sortedTimes song) := by
  refine ⟨?_, sortedTimes_nodup song, fun t => mem_sortedTimes song t, ?_⟩
  · unfold scheduledEventTimes
    rw [newRegsOf_eq, List.filter_append]
    have hB : (extraRegsList opts (Nat.repr song.totalBars ++ ":0:0")
        (tr.nextId + (sortedTimes song).length)).filter
        (fun r => decide (r.kind = CbKind.events)) = [] := by
      rcases opts with ⟨ob, oe⟩
      cases ob <;> cases oe <;> simp [extraRegsList]
    have hA : (evRegsFrom tr.nextId (sortedTimes song)).filter
        (fun r => decide (r.kind = CbKind.events)) =
        evRegsFrom tr.nextId (sortedTimes song) := by
      rw [List.filter_eq_self]
      intro r hr
      simp [(evRegsFrom_kind _ _ r hr).1]
    rw [hA, hB, List.append_nil, evRegsFrom_map_time]
  · have hsorted : List.Sorted timeLe (sortedTimes song) :=
      List.sorted_insertionSort timeLe (distinctTimes song)
    refine List.Pairwise.chain' (hsorted.imp_of_mem ?_)
    intro a b ha hb hab
    have hwa := h a ((mem_sortedTimes song a).mp ha)
    have hwb := h b ((mem_sortedTimes song b).mp hb)
    obtain ⟨⟨ba, ta, xa⟩, hpa⟩ := Option.isSome_iff_exists.mp hwa
    obtain ⟨⟨bb, tb, xb⟩, hpb⟩ := Option.isSome_iff_exists.mp hwb
    obtain ⟨hta, hxa⟩ := parseTimeTriple_bounds a ba ta xa hpa
    obtain ⟨htb, hxb⟩ := parseTimeTriple_bounds b bb tb xb hpb
    have h1 := transportParse_eq a ba ta xa hpa
    have h2 := transportParse_eq b bb tb xb hpb
    have hle : transportParse a ≤ transportParse b := hab
    rw [h1, h2] at hle
    unfold decodeTime
    rw [hpa, hpb]
    exact (tripleLe_iff_encode ba ta xa bb tb xb hta hxa htb hxb).mpr hle

/-- C2 witness: a concrete song with events at assorted well-formed times
(including a two-digit bar, where lexical string order would fail). -/
theorem schedule_one_callback_per_time_sorted_witness :
    (∀ t ∈ songEventTimes w2Song, wellFormedTime t) ∧
    (scheduledEventTimes w2Song ⟨true, true⟩ wTransport =
      sortedTimes w2Song ∧
    (sortedTimes w2Song).Nodup ∧
    (∀ t, t ∈ sortedTimes w2Song ↔ t ∈ songEventTimes w2Song) ∧
    List.Chain' (fun a b => tripleLe (decodeTime a) (decodeTime b))
      (sortedTimes w2Song)) :=
  ⟨by decide,
   schedule_one_callback_per_time_sorted w2Song ⟨true, true⟩ wTransport
     (by decide)⟩

end Lofi
